import Mathlib

/-!
# OS fingerprinting on a USB HID keyboard (src/main.c)

A shallow embedding of `src/main.c`: the global variables and the function-local
statics become the fields of `State`, every function becomes a function on `State`
that also returns the list of externally visible effects it performs (diagnostic
`printf` lines, keyboard reports, blocking delays, LED writes) in the order in which
the C code performs them.

Machine integers are natural numbers; `uint8_t` increments are taken modulo `2^8`
and `uint32_t` arithmetic modulo `2^32`.
-/

namespace PicoOsDetect

/-! ## Constants that come from headers outside `main.c` -/

/-- Values of the TinyUSB / `usb_descriptors.h` constants used by `main.c`. Their
declarations are not part of `main.c`, so they are parameters of the model. -/
structure HidConsts where
  REPORT_ID_KEYBOARD : Nat
  HID_KEY_NUM_LOCK : Nat
  KEYBOARD_LED_NUMLOCK : Nat
  HID_REPORT_TYPE_OUTPUT : Nat
deriving DecidableEq

/-! ## Machine arithmetic -/

/-- The C expression `x++` on a `uint8_t`. -/
def u8_inc (x : Nat) : Nat := (x + 1) % 256

/-- The C expression `a - b` on `uint32_t` operands. -/
def u32_sub (a b : Nat) : Nat := (a % 2 ^ 32 + (2 ^ 32 - b % 2 ^ 32)) % 2 ^ 32

/-- The C expression `a + b` stored into a `uint32_t`. -/
def u32_add (a b : Nat) : Nat := (a + b) % 2 ^ 32

/-! ## Data model -/

/-- The C `struct setups_data_t` (main.c:193-205). -/
structure setups_data_t where
  count : Nat
  count_402 : Nat
  count_20A : Nat
  count_2 : Nat
  count_4 : Nat
  count_E : Nat
  count_1E : Nat
  count_10 : Nat
  count_ff : Nat
  count_fe : Nat
  last_wlength : Nat
deriving DecidableEq

/-- The initial value of the global `setups_data` (main.c:207-218); `last_wlength`
has no initialiser and is zero as every C object of static storage. -/
def setups_data_init : setups_data_t :=
  { count := 0, count_402 := 0, count_20A := 0, count_2 := 0, count_4 := 0,
    count_E := 0, count_1E := 0, count_10 := 0, count_ff := 0, count_fe := 0,
    last_wlength := 0 }

/-- Blink periods, the anonymous `enum` of main.c:64-68. -/
def BLINK_NOT_MOUNTED : Nat := 250

/-- Blink period while mounted (main.c:66). -/
def BLINK_MOUNTED : Nat := 1000

/-- Blink period while suspended (main.c:67). -/
def BLINK_SUSPENDED : Nat := 2500

/-- All mutable state of the program: the globals `guessed`, `num_lock`,
`blink_interval_ms`, `setups_data`, the static `start_ms` of `guess_os`
(`guess_start_ms`) and the statics `start_ms`, `led_state` of `led_blinking_task`
(`led_start_ms`, `led_state`). -/
structure State where
  guessed : Nat
  num_lock : Nat
  blink_interval_ms : Nat
  setups_data : setups_data_t
  guess_start_ms : Nat
  led_start_ms : Nat
  led_state : Bool
deriving DecidableEq

/-- The state at power-on (main.c:58, 59, 70, 207, 250, 344, 345). -/
def State.init : State :=
  { guessed := 0, num_lock := 0, blink_interval_ms := BLINK_NOT_MOUNTED,
    setups_data := setups_data_init, guess_start_ms := 0, led_start_ms := 0,
    led_state := false }

/-- The diagnostic lines written with `printf`, one constructor per format string. -/
inductive Msg where
  /-- The line "Numlock called - Flag State = %u" (main.c:184). -/
  | numlock_called (flag : Nat)
  /-- The line "DescriptorIndex -> %X, wIndex -> %X, wLength -> %X" (main.c:245). -/
  | descriptor (desc_index wIndex wLength : Nat)
  /-- The line "OS_UNSURE, Not enough headers" (main.c:260). -/
  | os_unsure
  /-- The line "I think the OS is Linux!" (main.c:275). -/
  | linux
  /-- The line "I think the OS is ChromeOS!" (main.c:278). -/
  | chromeos
  /-- The line "I think the OS is FreeBSD" (main.c:285). -/
  | freebsd
  /-- The line "I think the OS is Windows, But the version that only has three
  packets for setup" (main.c:291). -/
  | windows_three
  /-- The line "I think the OS is Windows, But the version that has six packets for
  setup" (main.c:297). -/
  | windows_six
  /-- The line "I think this is a Windows machine, but the version that makes lots of
  requests" (main.c:303). -/
  | windows_lots
  /-- The line "I think the OS is Android" (main.c:309). -/
  | android
  /-- The line "I think the host OS is MacOS (Intel)" (main.c:315). -/
  | macos_intel
  /-- The line "I think the host OS is MacOS (ARM)" (main.c:321). -/
  | macos_arm
  /-- The line "I don't know what the OS of the host as I as I don't know the
  fingerprint" (main.c:333). -/
  | unknown_fingerprint
deriving DecidableEq

/-- The calls the program makes into its environment, in program order. -/
inductive Effect where
  /-- A call of `printf`. -/
  | printf (m : Msg)
  /-- A call `tud_hid_keyboard_report(report_id, modifier, keycode)`. -/
  | tud_hid_keyboard_report (report_id modifier : Nat) (keycode : List Nat)
  /-- A call `sleep_ms(ms)`. -/
  | sleep_ms (ms : Nat)
  /-- A call `board_led_write(state)`. -/
  | board_led_write (state : Bool)
deriving DecidableEq

/-- A function body in progress: the current state and the effects performed so far,
oldest first. -/
structure Run where
  st : State
  out : List Effect
deriving DecidableEq

/-- Start of a function body: nothing has been emitted yet. -/
def Run.start (s : State) : Run := ⟨s, []⟩

/-- The statement `printf(m)`. -/
def Run.printf (r : Run) (m : Msg) : Run := { r with out := r.out ++ [Effect.printf m] }

/-- The statement `sleep_ms(ms)`. -/
def Run.sleep_ms (r : Run) (ms : Nat) : Run := { r with out := r.out ++ [Effect.sleep_ms ms] }

/-- The statement `guessed = v`. -/
def Run.set_guessed (r : Run) (v : Nat) : Run := { r with st := { r.st with guessed := v } }

/-! ## Device callbacks (main.c:110-130) -/

/-- The callback `tud_mount_cb` (main.c:110-112). -/
def tud_mount_cb (s : State) : Run :=
  Run.start { s with blink_interval_ms := BLINK_MOUNTED }

/-- The callback `tud_umount_cb` (main.c:115-117). -/
def tud_umount_cb (s : State) : Run :=
  Run.start { s with blink_interval_ms := BLINK_NOT_MOUNTED }

/-- The callback `tud_suspend_cb` (main.c:122-125); the argument is ignored. -/
def tud_suspend_cb (_remote_wakeup_en : Bool) (s : State) : Run :=
  Run.start { s with blink_interval_ms := BLINK_SUSPENDED }

/-- The callback `tud_resume_cb` (main.c:128-130). -/
def tud_resume_cb (s : State) : Run :=
  Run.start { s with blink_interval_ms := BLINK_MOUNTED }

/-! ## USB HID (main.c:135-188) -/

/-- The function `send_hid_report` (main.c:135-140): a six byte key array, all zero
except slot 0, sent with the keyboard report id. -/
def send_hid_report (k : HidConsts) (modifier key : Nat) (r : Run) : Run :=
  let keycode : List Nat := (List.replicate 6 0).set 0 key
  { r with out := r.out ++ [Effect.tud_hid_keyboard_report k.REPORT_ID_KEYBOARD modifier keycode] }

/-- The callback `tud_hid_set_report_cb` (main.c:171-188). `buffer` is the memory
the pointer designates; `buffer[0]` is read only when `bufsize >= 1`. -/
def tud_hid_set_report_cb (k : HidConsts) (_inst report_id report_type : Nat)
    (buffer : List Nat) (bufsize : Nat) (s : State) : Run :=
  let r := Run.start s
  if report_type = k.HID_REPORT_TYPE_OUTPUT then
    if report_id = k.REPORT_ID_KEYBOARD then
      if bufsize < 1 then r
      else
        let kbd_leds := buffer.headD 0
        if kbd_leds &&& k.KEYBOARD_LED_NUMLOCK ≠ 0 then
          let r : Run := { r with st := { r.st with num_lock := 1 } }
          r.printf (Msg.numlock_called r.st.num_lock)
        else r
    else r
  else r

/-! ## wLength processing (main.c:221-246) -/

/-- The function `process_wlength` (main.c:221-246). -/
def process_wlength (desc_index wIndex wLength : Nat) (s : State) : Run :=
  let d := s.setups_data
  let d := { d with count := u8_inc d.count }
  let d := { d with last_wlength := wLength }
  let d :=
    if wLength = 0x402 then { d with count_402 := u8_inc d.count_402 }
    else if wLength = 0x20A then { d with count_20A := u8_inc d.count_20A }
    else if wLength = 0x2 then { d with count_2 := u8_inc d.count_2 }
    else if wLength = 0x4 then { d with count_4 := u8_inc d.count_4 }
    else if wLength = 0xE then { d with count_E := u8_inc d.count_E }
    else if wLength = 0x1E then { d with count_1E := u8_inc d.count_1E }
    else if wLength = 0x10 then { d with count_10 := u8_inc d.count_10 }
    else if wLength = 0xFF then { d with count_ff := u8_inc d.count_ff }
    else if wLength = 0xFE then { d with count_fe := u8_inc d.count_fe }
    else d
  (Run.start { s with setups_data := d }).printf (Msg.descriptor desc_index wIndex wLength)

/-! ## OS detection (main.c:248-337)

The body of `guess_os` is a sequence of independent `if` statements; each one is a
function on `Run` below, in source order. -/

/-- The `if` statement of main.c:259-262. -/
def check_not_enough (r : Run) : Run :=
  if r.st.setups_data.count < 3 then (r.printf Msg.os_unsure).set_guessed 2 else r

/-- What the LED report path does to the latch `num_lock` while the program is
blocked in a delay: `env i v` is the value of the latch after the `i`-th delay of the
probe (counted from 0) when it was `v` before that delay. -/
abbrev LatchEnv := Nat → Nat → Nat

/-- The environment in which nothing writes the latch during a delay. -/
def idle_env : LatchEnv := fun _ v => v

/-- The environment acting on the latch while the program is blocked. -/
def Run.during (r : Run) (f : Nat → Nat) : Run :=
  { r with st := { r.st with num_lock := f r.st.num_lock } }

/-- The `if` statement of main.c:265-281: four Num Lock key reports, each followed by
a 255 ms delay, then the read of `num_lock`. During each delay the environment `env`
may write the latch; the read at main.c:274 sees the latch as it is after the fourth
delay. -/
def check_linux_chromeos_env (k : HidConsts) (env : LatchEnv) (r : Run) : Run :=
  if r.st.setups_data.count = 5 ∧ r.st.setups_data.count_ff = 5 then
    let r := send_hid_report k 0 k.HID_KEY_NUM_LOCK r
    let r := (r.sleep_ms 255).during (env 0)
    let r := send_hid_report k 0 k.HID_KEY_NUM_LOCK r
    let r := (r.sleep_ms 255).during (env 1)
    let r := send_hid_report k 0 k.HID_KEY_NUM_LOCK r
    let r := (r.sleep_ms 255).during (env 2)
    let r := send_hid_report k 0 k.HID_KEY_NUM_LOCK r
    let r := (r.sleep_ms 255).during (env 3)
    if r.st.num_lock = 1 then (r.printf Msg.linux).set_guessed 1
    else (r.printf Msg.chromeos).set_guessed 1
  else r

/-- The `if` statement of main.c:265-281 when nothing writes the latch during the
delays. -/
def check_linux_chromeos (k : HidConsts) (r : Run) : Run :=
  check_linux_chromeos_env k idle_env r

/-- The `if` statement of main.c:284-287. -/
def check_freebsd (r : Run) : Run :=
  if r.st.setups_data.count = 8 ∧ r.st.setups_data.count_2 = 4
      ∧ r.st.setups_data.count_E = 1 ∧ r.st.setups_data.count_1E = 1 then
    (r.printf Msg.freebsd).set_guessed 1
  else r

/-- The `if` statement of main.c:290-293. -/
def check_windows_three (r : Run) : Run :=
  if r.st.setups_data.count = 3 ∧ r.st.setups_data.count_ff = 3 then
    (r.printf Msg.windows_three).set_guessed 1
  else r

/-- The `if` statement of main.c:296-299. -/
def check_windows_six (r : Run) : Run :=
  if r.st.setups_data.count = 6 ∧ r.st.setups_data.count_ff = 6 then
    (r.printf Msg.windows_six).set_guessed 1
  else r

/-- The `if` statement of main.c:302-305. -/
def check_windows_lots (r : Run) : Run :=
  if r.st.setups_data.count > 10 ∧ r.st.setups_data.count_ff > 10 then
    (r.printf Msg.windows_lots).set_guessed 1
  else r

/-- The `if` statement of main.c:308-311. -/
def check_android (r : Run) : Run :=
  if r.st.setups_data.count = 17 ∧ r.st.setups_data.count_ff = 11
      ∧ r.st.setups_data.count_fe = 6 then
    (r.printf Msg.android).set_guessed 1
  else r

/-- The `if` statement of main.c:314-317. -/
def check_macos_intel (r : Run) : Run :=
  if r.st.setups_data.count = 6 ∧ r.st.setups_data.count_2 = 3
      ∧ r.st.setups_data.count_E = 1 then
    (r.printf Msg.macos_intel).set_guessed 1
  else r

/-- The `if` statement of main.c:320-323. -/
def check_macos_arm (r : Run) : Run :=
  if r.st.setups_data.count = 7 ∧ r.st.setups_data.count_2 = 3
      ∧ r.st.setups_data.count_E = 1 ∧ r.st.setups_data.count_ff = 1 then
    (r.printf Msg.macos_arm).set_guessed 1
  else r

/-- The `if` statement of main.c:332-335. -/
def check_still_unknown (r : Run) : Run :=
  if r.st.guessed = 0 then (r.printf Msg.unknown_fingerprint).set_guessed 2 else r

/-- The block guarded by `guessed == 0 && guessed != 2` (main.c:258-335). -/
def guess_os_body (k : HidConsts) (r : Run) : Run :=
  let r := check_not_enough r
  let r := check_linux_chromeos k r
  let r := check_freebsd r
  let r := check_windows_three r
  let r := check_windows_six r
  let r := check_windows_lots r
  let r := check_android r
  let r := check_macos_intel r
  let r := check_macos_arm r
  check_still_unknown r

/-- The constant `interval_ms` of `guess_os` (main.c:249). -/
def interval_ms : Nat := 2000

/-- The function `guess_os` (main.c:248-337); `now` is the value `board_millis()`
returns. -/
def guess_os (k : HidConsts) (now : Nat) (s : State) : Run :=
  let r := Run.start s
  if u32_sub now r.st.guess_start_ms < interval_ms then r
  else
    let r : Run := { r with st := { r.st with guess_start_ms := u32_add r.st.guess_start_ms interval_ms } }
    if r.st.guessed = 0 ∧ r.st.guessed ≠ 2 then guess_os_body k r else r

/-- The block main.c:258-335 when the environment `env` may write the latch during
the delays of the probe; with `idle_env` it is `guess_os_body`. -/
def guess_os_body_env (k : HidConsts) (env : LatchEnv) (r : Run) : Run :=
  let r := check_not_enough r
  let r := check_linux_chromeos_env k env r
  let r := check_freebsd r
  let r := check_windows_three r
  let r := check_windows_six r
  let r := check_windows_lots r
  let r := check_android r
  let r := check_macos_intel r
  let r := check_macos_arm r
  check_still_unknown r

/-- The function `guess_os` (main.c:248-337) when the environment `env` may write
the latch during the delays of the probe; with `idle_env` it is `guess_os`. -/
def guess_os_env (k : HidConsts) (env : LatchEnv) (now : Nat) (s : State) : Run :=
  let r := Run.start s
  if u32_sub now r.st.guess_start_ms < interval_ms then r
  else
    let r : Run := { r with st := { r.st with guess_start_ms := u32_add r.st.guess_start_ms interval_ms } }
    if r.st.guessed = 0 ∧ r.st.guessed ≠ 2 then guess_os_body_env k env r else r

/-! ## Blinking task (main.c:343-356) -/

/-- The function `led_blinking_task` (main.c:343-356); `now` is the value
`board_millis()` returns. -/
def led_blinking_task (now : Nat) (s : State) : Run :=
  let r := Run.start s
  if r.st.blink_interval_ms = 0 then r
  else if u32_sub now r.st.led_start_ms < r.st.blink_interval_ms then r
  else
    let r : Run := { r with st := { r.st with led_start_ms := u32_add r.st.led_start_ms r.st.blink_interval_ms } }
    let r : Run := { r with out := r.out ++ [Effect.board_led_write r.st.led_state] }
    { r with st := { r.st with led_state := !r.st.led_state } }

/-! ## Sequences of calls -/

/-- One entry into the program from the main loop or from the USB stack. -/
inductive Call where
  | guess_os (now : Nat)
  | process_wlength (desc_index wIndex wLength : Nat)
  | tud_hid_set_report_cb (inst report_id report_type : Nat) (buffer : List Nat) (bufsize : Nat)
  | tud_mount_cb
  | tud_umount_cb
  | tud_suspend_cb (remote_wakeup_en : Bool)
  | tud_resume_cb
  | led_blinking_task (now : Nat)
deriving DecidableEq

/-- Performing one call. -/
def Call.exec (k : HidConsts) (c : Call) (s : State) : Run :=
  match c with
  | Call.guess_os now => PicoOsDetect.guess_os k now s
  | Call.process_wlength di wi wl => PicoOsDetect.process_wlength di wi wl s
  | Call.tud_hid_set_report_cb i id ty buf n => PicoOsDetect.tud_hid_set_report_cb k i id ty buf n s
  | Call.tud_mount_cb => PicoOsDetect.tud_mount_cb s
  | Call.tud_umount_cb => PicoOsDetect.tud_umount_cb s
  | Call.tud_suspend_cb en => PicoOsDetect.tud_suspend_cb en s
  | Call.tud_resume_cb => PicoOsDetect.tud_resume_cb s
  | Call.led_blinking_task now => PicoOsDetect.led_blinking_task now s

/-- The state after a sequence of calls, performed left to right. -/
def exec_all (k : HidConsts) : List Call → State → State
  | [], s => s
  | c :: cs, s => exec_all k cs (c.exec k s).st

/-- The histogram after a sequence of `process_wlength` calls, given by their
arguments `(desc_index, wIndex, wLength)`, performed left to right. -/
def observe_all : List (Nat × Nat × Nat) → State → State
  | [], s => s
  | c :: cs, s => observe_all cs (process_wlength c.1 c.2.1 c.2.2 s).st

/-- Number of calls in the sequence whose `wLength` is exactly `v`. -/
def calls_with (v : Nat) (cs : List (Nat × Nat × Nat)) : Nat :=
  (cs.filter (fun c => c.2.2 = v)).length

/-! ## The signature table read off `guess_os` -/

/-- The eight fingerprint `if` statements of `guess_os`, in source order. -/
inductive Row where
  | linux_chromeos
  | freebsd
  | windows_three
  | windows_six
  | windows_lots
  | android
  | macos_intel
  | macos_arm
deriving DecidableEq, Fintype

/-- The condition of each fingerprint `if` statement (main.c:265, 284, 290, 296, 302,
308, 314, 320). -/
def Row.holds (row : Row) (d : setups_data_t) : Prop :=
  match row with
  | Row.linux_chromeos => d.count = 5 ∧ d.count_ff = 5
  | Row.freebsd => d.count = 8 ∧ d.count_2 = 4 ∧ d.count_E = 1 ∧ d.count_1E = 1
  | Row.windows_three => d.count = 3 ∧ d.count_ff = 3
  | Row.windows_six => d.count = 6 ∧ d.count_ff = 6
  | Row.windows_lots => d.count > 10 ∧ d.count_ff > 10
  | Row.android => d.count = 17 ∧ d.count_ff = 11 ∧ d.count_fe = 6
  | Row.macos_intel => d.count = 6 ∧ d.count_2 = 3 ∧ d.count_E = 1
  | Row.macos_arm => d.count = 7 ∧ d.count_2 = 3 ∧ d.count_E = 1 ∧ d.count_ff = 1

instance (row : Row) (d : setups_data_t) : Decidable (row.holds d) := by
  cases row <;> unfold Row.holds <;> infer_instance

/-- The line each fingerprint `if` statement prints; the first one prints one of two
lines, chosen by the value of `num_lock`. -/
def Row.fingerprint (row : Row) (num_lock : Nat) : Msg :=
  match row with
  | Row.linux_chromeos => if num_lock = 1 then Msg.linux else Msg.chromeos
  | Row.freebsd => Msg.freebsd
  | Row.windows_three => Msg.windows_three
  | Row.windows_six => Msg.windows_six
  | Row.windows_lots => Msg.windows_lots
  | Row.android => Msg.android
  | Row.macos_intel => Msg.macos_intel
  | Row.macos_arm => Msg.macos_arm

/-- The gate of `guess_os` lets the call through (main.c:253 does not return). -/
def gate_fires (now : Nat) (s : State) : Prop := ¬ (u32_sub now s.guess_start_ms < interval_ms)

instance (now : Nat) (s : State) : Decidable (gate_fires now s) := by
  unfold gate_fires; infer_instance

/-- The classification lines among the effects, in order. -/
def outcomes (out : List Effect) : List Msg :=
  out.filterMap (fun e => match e with | Effect.printf m => some m | _ => none)

/-- The effects of the Active Probe: a keyboard report or a blocking delay. -/
def Effect.is_probe (e : Effect) : Bool :=
  match e with
  | Effect.tud_hid_keyboard_report _ _ _ => true
  | Effect.sleep_ms _ => true
  | _ => false

/-- The four toggles of main.c:266-273 as effects. -/
def probe_effects (k : HidConsts) : List Effect :=
  [Effect.tud_hid_keyboard_report k.REPORT_ID_KEYBOARD 0 [k.HID_KEY_NUM_LOCK, 0, 0, 0, 0, 0],
   Effect.sleep_ms 255,
   Effect.tud_hid_keyboard_report k.REPORT_ID_KEYBOARD 0 [k.HID_KEY_NUM_LOCK, 0, 0, 0, 0, 0],
   Effect.sleep_ms 255,
   Effect.tud_hid_keyboard_report k.REPORT_ID_KEYBOARD 0 [k.HID_KEY_NUM_LOCK, 0, 0, 0, 0, 0],
   Effect.sleep_ms 255,
   Effect.tud_hid_keyboard_report k.REPORT_ID_KEYBOARD 0 [k.HID_KEY_NUM_LOCK, 0, 0, 0, 0, 0],
   Effect.sleep_ms 255]

/-- Sample header constants used for concrete evaluations. -/
def sample_consts : HidConsts :=
  { REPORT_ID_KEYBOARD := 1, HID_KEY_NUM_LOCK := 0x53, KEYBOARD_LED_NUMLOCK := 1,
    HID_REPORT_TYPE_OUTPUT := 2 }

/-- The power-on state with histogram `d` and latch value `num_lock`. -/
def sample_state (d : setups_data_t) (num_lock : Nat) : State :=
  { State.init with setups_data := d, num_lock := num_lock }

/-- The value of `guessed` after the `if` statements of main.c:259-323, started with
`guessed = 0`: the last fingerprint statement whose condition holds wrote 1,
otherwise the value is the one main.c:259-262 left. -/
def guessed_after_rules (d : setups_data_t) : Nat :=
  if Row.macos_arm.holds d then 1
  else if Row.macos_intel.holds d then 1
  else if Row.android.holds d then 1
  else if Row.windows_lots.holds d then 1
  else if Row.windows_six.holds d then 1
  else if Row.windows_three.holds d then 1
  else if Row.freebsd.holds d then 1
  else if Row.linux_chromeos.holds d then 1
  else if d.count < 3 then 2
  else 0

/-- The effects of the block main.c:258-335 for histogram `d` and latch `num_lock`,
started with `guessed = 0`. -/
def body_effects (k : HidConsts) (num_lock : Nat) (d : setups_data_t) : List Effect :=
  (if d.count < 3 then [Effect.printf Msg.os_unsure] else [])
  ++ (if Row.linux_chromeos.holds d then
        probe_effects k ++ [Effect.printf (Row.linux_chromeos.fingerprint num_lock)] else [])
  ++ (if Row.freebsd.holds d then [Effect.printf Msg.freebsd] else [])
  ++ (if Row.windows_three.holds d then [Effect.printf Msg.windows_three] else [])
  ++ (if Row.windows_six.holds d then [Effect.printf Msg.windows_six] else [])
  ++ (if Row.windows_lots.holds d then [Effect.printf Msg.windows_lots] else [])
  ++ (if Row.android.holds d then [Effect.printf Msg.android] else [])
  ++ (if Row.macos_intel.holds d then [Effect.printf Msg.macos_intel] else [])
  ++ (if Row.macos_arm.holds d then [Effect.printf Msg.macos_arm] else [])
  ++ (if guessed_after_rules d = 0 then [Effect.printf Msg.unknown_fingerprint] else [])

/-- The nine bucket counters, in the order of the `if` chain of `process_wlength`
(main.c:225-243). -/
def buckets (d : setups_data_t) : List Nat :=
  [d.count_402, d.count_20A, d.count_2, d.count_4, d.count_E, d.count_1E, d.count_10,
    d.count_ff, d.count_fe]

/-- The wLength value each bucket counter is compared with, in the same order
(main.c:225-241). -/
def bucket_values : List Nat := [0x402, 0x20A, 0x2, 0x4, 0xE, 0x1E, 0x10, 0xFF, 0xFE]

/-- The histogram after a sequence of `process_wlength` calls from power-on. -/
def histogram (cs : List (Nat × Nat × Nat)) : setups_data_t :=
  (observe_all cs State.init).setups_data

/-- A sequence of 256 requests with wLength 0xFF. -/
def calls_256 : List (Nat × Nat × Nat) := List.replicate 256 (0, 0, 0xFF)

/-- A sequence of 255 requests with wLength 0xFF. -/
def calls_255 : List (Nat × Nat × Nat) := List.replicate 255 (0, 0, 0xFF)

/-- Eleven requests with wLength 0xFF followed by six with wLength 0xFE. -/
def calls_android : List (Nat × Nat × Nat) :=
  List.replicate 11 (0, 0, 0xFF) ++ List.replicate 6 (0, 0, 0xFE)

/-- Three requests: wLength 0xFF, an unrecognised wLength 0x40, wLength 0x2. -/
def calls_three : List (Nat × Nat × Nat) := [(0, 0, 0xFF), (1, 0x409, 0x40), (2, 0x409, 0x2)]

/-! ## Concrete histograms and states used for evaluation -/

/-- Five requests, all with wLength 0xFF. -/
def hist_linux : setups_data_t := { setups_data_init with count := 5, count_ff := 5 }

/-- Eight requests: four of wLength 0x2, one of 0xE, one of 0x1E. -/
def hist_freebsd : setups_data_t :=
  { setups_data_init with count := 8, count_2 := 4, count_E := 1, count_1E := 1 }

/-- Twelve requests, eleven of them with wLength 0xFF. -/
def hist_windows_lots : setups_data_t := { setups_data_init with count := 12, count_ff := 11 }

/-- Seventeen requests: eleven of wLength 0xFF and six of 0xFE. -/
def hist_android : setups_data_t :=
  { setups_data_init with count := 17, count_ff := 11, count_fe := 6 }

/-- Two requests of an unrecognised wLength. -/
def hist_two : setups_data_t := { setups_data_init with count := 2 }

/-- Seven requests of an unrecognised wLength: no fingerprint condition holds. -/
def hist_seven : setups_data_t := { setups_data_init with count := 7 }

/-! ## Observations on effect traces and call sequences -/

/-- Total time spent in `sleep_ms` along a trace, in milliseconds. -/
def total_delay : List Effect → Nat
  | [] => 0
  | Effect.sleep_ms ms :: es => ms + total_delay es
  | _ :: es => total_delay es

/-- The keyboard reports of a trace, in order. -/
def key_reports (out : List Effect) : List Effect :=
  out.filter (fun e => match e with | Effect.tud_hid_keyboard_report _ _ _ => true | _ => false)

/-- The delays of a trace, in order. -/
def delays (out : List Effect) : List Effect :=
  out.filter (fun e => match e with | Effect.sleep_ms _ => true | _ => false)

/-- A state just before the 32-bit timer of `guess_os` wraps: 2147483 windows of
2000 ms have elapsed. -/
def state_before_wrap : State := { State.init with guess_start_ms := 4294966000 }

/-- The clock value a call of `guess_os` reads; the other entry points are not gate
calls. -/
def Call.reading (c : Call) : Option Nat :=
  match c with
  | Call.guess_os now => some now
  | _ => none

/-- The clock values read by the `guess_os` calls of a sequence, in order. -/
def clock_readings (cs : List Call) : List Nat := cs.filterMap Call.reading

/-- The clock readings `ts` continue a clock whose previous reading was `prev`: they
never decrease, every one is less than 2000 ms after the one before it, and all stay
below `2^32`. With `prev = 0` the first reading is below 2000 ms. -/
def clock_ok : Nat → List Nat → Prop
  | _, [] => True
  | prev, t :: ts => prev ≤ t ∧ t < prev + 2000 ∧ t < 4294967296 ∧ clock_ok t ts

instance clock_ok_decidable : (prev : Nat) → (ts : List Nat) → Decidable (clock_ok prev ts)
  | _, [] => isTrue trivial
  | prev, t :: ts =>
    haveI := clock_ok_decidable t ts
    inferInstanceAs (Decidable (prev ≤ t ∧ t < prev + 2000 ∧ t < 4294967296 ∧ clock_ok t ts))

/-- The last of the readings `ts`, or `prev` when there is none. -/
def last_of : Nat → List Nat → Nat
  | prev, [] => prev
  | _, t :: ts => last_of t ts

/-- Whether the call is a `guess_os` call that passes the gate in state `s`. -/
def Call.fires (c : Call) (s : State) : Bool :=
  match c with
  | Call.guess_os now => decide (gate_fires now s)
  | _ => false

/-- Number of `guess_os` calls of the sequence that pass the gate, the sequence being
performed from state `s`. -/
def firing_count (k : HidConsts) : List Call → State → Nat
  | [], _ => 0
  | c :: cs, s => (if c.fires s then 1 else 0) + firing_count k cs (c.exec k s).st

/-- A session: two early gate calls, a request, the first firing at 2100 ms and a
later call at 3900 ms. -/
def calls_session : List Call :=
  [Call.guess_os 500, Call.guess_os 1900, Call.process_wlength 0 0 0xFF, Call.guess_os 2100,
    Call.guess_os 3900]

/-- Whether the call is a `guess_os` call that enters the block main.c:258-335 in
state `s`: it passes the gate and the guard `guessed == 0 && guessed != 2`. -/
def Call.evaluates (c : Call) (s : State) : Bool :=
  match c with
  | Call.guess_os now => decide (gate_fires now s ∧ (s.guessed = 0 ∧ s.guessed ≠ 2))
  | _ => false

/-- Number of calls of the sequence that enter the block main.c:258-335, the
sequence being performed from state `s`. -/
def evaluation_count (k : HidConsts) : List Call → State → Nat
  | [], _ => 0
  | c :: cs, s => (if c.evaluates s then 1 else 0) + evaluation_count k cs (c.exec k s).st

/-- A sequence of 261 requests with wLength 0xFF. -/
def calls_261 : List (Nat × Nat × Nat) := List.replicate 261 (0, 0, 0xFF)

/-- A sequence of 5 requests with wLength 0xFF. -/
def calls_5 : List (Nat × Nat × Nat) := List.replicate 5 (0, 0, 0xFF)

/-- The blink period the specification assigns to each notification: 1000 after
mount or resume, 250 after unmount, 2500 after suspend; the other entry points are
not notifications. This table follows the wording of the specification and is
compared with the callbacks of main.c:110-130. -/
def notification_period (c : Call) : Option Nat :=
  match c with
  | Call.tud_mount_cb => some 1000
  | Call.tud_umount_cb => some 250
  | Call.tud_suspend_cb _ => some 2500
  | Call.tud_resume_cb => some 1000
  | _ => none

/-- The period fixed by the last notification of a sequence, 250 when there is none
(wording of the specification). -/
def period_by_last_notification (cs : List Call) : Nat :=
  ((cs.filterMap notification_period).getLast?).getD 250

/-- An environment in which the host's LED report arrives during the fourth delay
of the probe and sets the latch. -/
def env_fourth_delay : LatchEnv := fun i v => if i = 3 then 1 else v

/-! # Theorems -/

/-! ## The body of `guess_os` in closed form -/

theorem rule_mk (C : Prop) [Decidable C] (m : Msg) (g nl b : Nat) (d : setups_data_t)
    (gs ls : Nat) (lst : Bool) (o : List Effect) :
    (if C then (Run.printf ⟨⟨g, nl, b, d, gs, ls, lst⟩, o⟩ m).set_guessed 1
      else (⟨⟨g, nl, b, d, gs, ls, lst⟩, o⟩ : Run))
      = ⟨⟨if C then 1 else g, nl, b, d, gs, ls, lst⟩,
          o ++ if C then [Effect.printf m] else []⟩ := by
  by_cases h : C <;> simp [h, Run.printf, Run.set_guessed]

theorem check_not_enough_mk (g nl b : Nat) (d : setups_data_t) (gs ls : Nat) (lst : Bool)
    (o : List Effect) :
    check_not_enough ⟨⟨g, nl, b, d, gs, ls, lst⟩, o⟩
      = ⟨⟨if d.count < 3 then 2 else g, nl, b, d, gs, ls, lst⟩,
          o ++ if d.count < 3 then [Effect.printf Msg.os_unsure] else []⟩ := by
  unfold check_not_enough
  by_cases h : d.count < 3 <;> simp [h, Run.printf, Run.set_guessed]

theorem check_linux_chromeos_env_mk (k : HidConsts) (env : LatchEnv) (g nl b : Nat)
    (d : setups_data_t) (gs ls : Nat) (lst : Bool) (o : List Effect) :
    check_linux_chromeos_env k env ⟨⟨g, nl, b, d, gs, ls, lst⟩, o⟩
      = ⟨⟨if Row.linux_chromeos.holds d then 1 else g,
            if Row.linux_chromeos.holds d then env 3 (env 2 (env 1 (env 0 nl))) else nl,
            b, d, gs, ls, lst⟩,
          o ++ if Row.linux_chromeos.holds d then
            probe_effects k
              ++ [Effect.printf (Row.linux_chromeos.fingerprint (env 3 (env 2 (env 1 (env 0 nl)))))]
          else []⟩ := by
  unfold check_linux_chromeos_env
  by_cases h : d.count = 5 ∧ d.count_ff = 5
  · by_cases hn : env 3 (env 2 (env 1 (env 0 nl))) = 1 <;>
      simp [h, hn, Row.holds, Row.fingerprint, Run.printf, Run.set_guessed, Run.sleep_ms,
        Run.during, send_hid_report, probe_effects]
  · simp [h, Row.holds]

theorem check_linux_chromeos_mk (k : HidConsts) (g nl b : Nat) (d : setups_data_t)
    (gs ls : Nat) (lst : Bool) (o : List Effect) :
    check_linux_chromeos k ⟨⟨g, nl, b, d, gs, ls, lst⟩, o⟩
      = ⟨⟨if Row.linux_chromeos.holds d then 1 else g, nl, b, d, gs, ls, lst⟩,
          o ++ if Row.linux_chromeos.holds d then
            probe_effects k ++ [Effect.printf (Row.linux_chromeos.fingerprint nl)]
          else []⟩ := by
  unfold check_linux_chromeos
  rw [check_linux_chromeos_env_mk]
  simp only [idle_env, ite_self]

theorem check_freebsd_mk (g nl b : Nat) (d : setups_data_t) (gs ls : Nat) (lst : Bool)
    (o : List Effect) :
    check_freebsd ⟨⟨g, nl, b, d, gs, ls, lst⟩, o⟩
      = ⟨⟨if Row.freebsd.holds d then 1 else g, nl, b, d, gs, ls, lst⟩,
          o ++ if Row.freebsd.holds d then [Effect.printf Msg.freebsd] else []⟩ :=
  rule_mk (Row.freebsd.holds d) Msg.freebsd g nl b d gs ls lst o

theorem check_windows_three_mk (g nl b : Nat) (d : setups_data_t) (gs ls : Nat) (lst : Bool)
    (o : List Effect) :
    check_windows_three ⟨⟨g, nl, b, d, gs, ls, lst⟩, o⟩
      = ⟨⟨if Row.windows_three.holds d then 1 else g, nl, b, d, gs, ls, lst⟩,
          o ++ if Row.windows_three.holds d then [Effect.printf Msg.windows_three] else []⟩ :=
  rule_mk (Row.windows_three.holds d) Msg.windows_three g nl b d gs ls lst o

theorem check_windows_six_mk (g nl b : Nat) (d : setups_data_t) (gs ls : Nat) (lst : Bool)
    (o : List Effect) :
    check_windows_six ⟨⟨g, nl, b, d, gs, ls, lst⟩, o⟩
      = ⟨⟨if Row.windows_six.holds d then 1 else g, nl, b, d, gs, ls, lst⟩,
          o ++ if Row.windows_six.holds d then [Effect.printf Msg.windows_six] else []⟩ :=
  rule_mk (Row.windows_six.holds d) Msg.windows_six g nl b d gs ls lst o

theorem check_windows_lots_mk (g nl b : Nat) (d : setups_data_t) (gs ls : Nat) (lst : Bool)
    (o : List Effect) :
    check_windows_lots ⟨⟨g, nl, b, d, gs, ls, lst⟩, o⟩
      = ⟨⟨if Row.windows_lots.holds d then 1 else g, nl, b, d, gs, ls, lst⟩,
          o ++ if Row.windows_lots.holds d then [Effect.printf Msg.windows_lots] else []⟩ :=
  rule_mk (Row.windows_lots.holds d) Msg.windows_lots g nl b d gs ls lst o

theorem check_android_mk (g nl b : Nat) (d : setups_data_t) (gs ls : Nat) (lst : Bool)
    (o : List Effect) :
    check_android ⟨⟨g, nl, b, d, gs, ls, lst⟩, o⟩
      = ⟨⟨if Row.android.holds d then 1 else g, nl, b, d, gs, ls, lst⟩,
          o ++ if Row.android.holds d then [Effect.printf Msg.android] else []⟩ :=
  rule_mk (Row.android.holds d) Msg.android g nl b d gs ls lst o

theorem check_macos_intel_mk (g nl b : Nat) (d : setups_data_t) (gs ls : Nat) (lst : Bool)
    (o : List Effect) :
    check_macos_intel ⟨⟨g, nl, b, d, gs, ls, lst⟩, o⟩
      = ⟨⟨if Row.macos_intel.holds d then 1 else g, nl, b, d, gs, ls, lst⟩,
          o ++ if Row.macos_intel.holds d then [Effect.printf Msg.macos_intel] else []⟩ :=
  rule_mk (Row.macos_intel.holds d) Msg.macos_intel g nl b d gs ls lst o

theorem check_macos_arm_mk (g nl b : Nat) (d : setups_data_t) (gs ls : Nat) (lst : Bool)
    (o : List Effect) :
    check_macos_arm ⟨⟨g, nl, b, d, gs, ls, lst⟩, o⟩
      = ⟨⟨if Row.macos_arm.holds d then 1 else g, nl, b, d, gs, ls, lst⟩,
          o ++ if Row.macos_arm.holds d then [Effect.printf Msg.macos_arm] else []⟩ :=
  rule_mk (Row.macos_arm.holds d) Msg.macos_arm g nl b d gs ls lst o

theorem check_still_unknown_mk (g nl b : Nat) (d : setups_data_t) (gs ls : Nat) (lst : Bool)
    (o : List Effect) :
    check_still_unknown ⟨⟨g, nl, b, d, gs, ls, lst⟩, o⟩
      = ⟨⟨if g = 0 then 2 else g, nl, b, d, gs, ls, lst⟩,
          o ++ if g = 0 then [Effect.printf Msg.unknown_fingerprint] else []⟩ := by
  unfold check_still_unknown
  by_cases h : g = 0 <;> simp [h, Run.printf, Run.set_guessed]

theorem guess_os_body_eq (k : HidConsts) (s : State) (o : List Effect) (h0 : s.guessed = 0) :
    guess_os_body k ⟨s, o⟩
      = ⟨{ s with guessed := if guessed_after_rules s.setups_data = 0 then 2
                              else guessed_after_rules s.setups_data },
          o ++ body_effects k s.num_lock s.setups_data⟩ := by
  obtain ⟨g, nl, b, d, gs, ls, lst⟩ := s
  simp only at h0
  subst h0
  simp only [guess_os_body, check_not_enough_mk, check_linux_chromeos_mk, check_freebsd_mk,
    check_windows_three_mk, check_windows_six_mk, check_windows_lots_mk, check_android_mk,
    check_macos_intel_mk, check_macos_arm_mk, check_still_unknown_mk, guessed_after_rules,
    body_effects, List.append_assoc]

/-! ## `guess_os` in closed form -/

theorem guess_os_not_fired (k : HidConsts) (now : Nat) (s : State) (h : ¬ gate_fires now s) :
    guess_os k now s = ⟨s, []⟩ := by
  unfold gate_fires at h
  simp only [not_not] at h
  simp [guess_os, Run.start, h]

theorem guess_os_fired_terminal (k : HidConsts) (now : Nat) (s : State)
    (h : gate_fires now s) (hg : s.guessed ≠ 0) :
    guess_os k now s
      = ⟨{ s with guess_start_ms := u32_add s.guess_start_ms interval_ms }, []⟩ := by
  unfold gate_fires at h
  simp [guess_os, Run.start, h, hg]

theorem guess_os_fired_body (k : HidConsts) (now : Nat) (s : State)
    (h : gate_fires now s) (hg : s.guessed = 0) :
    guess_os k now s
      = guess_os_body k
          ⟨{ s with guess_start_ms := u32_add s.guess_start_ms interval_ms }, []⟩ := by
  unfold gate_fires at h
  unfold guess_os
  simp only [Run.start]
  rw [if_neg h, if_pos ⟨hg, by omega⟩]

theorem guess_os_fired_unresolved (k : HidConsts) (now : Nat) (s : State)
    (h : gate_fires now s) (hg : s.guessed = 0) :
    guess_os k now s
      = ⟨{ s with guess_start_ms := u32_add s.guess_start_ms interval_ms,
                  guessed := if guessed_after_rules s.setups_data = 0 then 2
                              else guessed_after_rules s.setups_data },
          body_effects k s.num_lock s.setups_data⟩ := by
  rw [guess_os_fired_body k now s h hg]
  have hb := guess_os_body_eq k
    { s with guess_start_ms := u32_add s.guess_start_ms interval_ms } [] hg
  rw [hb]
  simp only [List.nil_append]

/-- No fingerprint condition holds for a histogram with fewer than three requests. -/
theorem no_row_of_count_lt_three (d : setups_data_t) (h : d.count < 3) (row : Row) :
    ¬ row.holds d := by
  cases row <;> simp only [Row.holds] <;> omega

/-- The value of `guessed` after the fingerprint statements is 1 exactly when some
condition holds. -/
theorem guessed_after_rules_eq_one (d : setups_data_t) :
    guessed_after_rules d = 1 ↔ ∃ row : Row, row.holds d := by
  constructor
  · intro h
    unfold guessed_after_rules at h
    split_ifs at h with h1 h2 h3 h4 h5 h6 h7 h8 h9
    exacts [⟨_, h1⟩, ⟨_, h2⟩, ⟨_, h3⟩, ⟨_, h4⟩, ⟨_, h5⟩, ⟨_, h6⟩, ⟨_, h7⟩, ⟨_, h8⟩,
      absurd h (by decide)]
  · rintro ⟨row, h⟩
    unfold guessed_after_rules
    cases row <;> simp_all

theorem guessed_after_rules_of_none (d : setups_data_t) (h : ¬ ∃ row : Row, row.holds d) :
    guessed_after_rules d = if d.count < 3 then 2 else 0 := by
  have h' : ∀ row : Row, ¬ row.holds d := fun row hr => h ⟨row, hr⟩
  unfold guessed_after_rules
  simp [h' Row.macos_arm, h' Row.macos_intel, h' Row.android, h' Row.windows_lots,
    h' Row.windows_six, h' Row.windows_three, h' Row.freebsd, h' Row.linux_chromeos]

/-! ## Classification -/

/-- C1: for every histogram with `count = 5` and `count_ff = 5`, a call of `guess_os`
that passes the gate with `guessed = 0` ends with `guessed = 1`; its effects are the
four Num Lock toggles followed by the Linux line when `num_lock` is 1 at the read,
and followed by the ChromeOS line when it is not (in particular when it is 0). The
call never writes `num_lock`, so the value at the read is the one in the state. -/
theorem guess_os_linux_or_chromeos (k : HidConsts) (now : Nat) (s : State)
    (hf : gate_fires now s) (h0 : s.guessed = 0)
    (hn : s.setups_data.count = 5) (hff : s.setups_data.count_ff = 5) :
    (guess_os k now s).st.guessed = 1
      ∧ (s.num_lock = 1 →
          (guess_os k now s).out = probe_effects k ++ [Effect.printf Msg.linux])
      ∧ (s.num_lock ≠ 1 →
          (guess_os k now s).out = probe_effects k ++ [Effect.printf Msg.chromeos]) := by
  rw [guess_os_fired_unresolved k now s hf h0]
  have hg : guessed_after_rules s.setups_data = 1 :=
    (guessed_after_rules_eq_one _).2 ⟨Row.linux_chromeos, by simp [Row.holds, hn, hff]⟩
  refine ⟨by simp [hg], ?_, ?_⟩ <;> intro hl <;>
    simp [body_effects, Row.holds, Row.fingerprint, hn, hff, hl, hg]

/-- Witness of C1 with the latch set: the result is Linux. -/
theorem guess_os_linux_or_chromeos_witness :
    gate_fires 2000 (sample_state hist_linux 1)
      ∧ (guess_os sample_consts 2000 (sample_state hist_linux 1)).st.guessed = 1
      ∧ (guess_os sample_consts 2000 (sample_state hist_linux 1)).out
          = probe_effects sample_consts ++ [Effect.printf Msg.linux] :=
  ⟨by decide,
    (guess_os_linux_or_chromeos sample_consts 2000 (sample_state hist_linux 1)
      (by decide) (by decide) (by decide) (by decide)).1,
    (guess_os_linux_or_chromeos sample_consts 2000 (sample_state hist_linux 1)
      (by decide) (by decide) (by decide) (by decide)).2.1 (by decide)⟩

/-- C2: for every histogram and latch value, a call of `guess_os` that passes the gate
with `guessed = 0` ends with `guessed = 1` if at least one of the eight fingerprint
conditions holds, and with `guessed = 2` if none holds. -/
theorem guess_os_resolved_iff_some_row (k : HidConsts) (now : Nat) (s : State)
    (hf : gate_fires now s) (h0 : s.guessed = 0) :
    ((∃ row : Row, row.holds s.setups_data) → (guess_os k now s).st.guessed = 1)
      ∧ ((¬ ∃ row : Row, row.holds s.setups_data) → (guess_os k now s).st.guessed = 2) := by
  rw [guess_os_fired_unresolved k now s hf h0]
  constructor
  · intro h
    simp [(guessed_after_rules_eq_one _).2 h]
  · intro h
    rw [guessed_after_rules_of_none _ h]
    by_cases hc : s.setups_data.count < 3 <;> simp [hc]

/-- Witness of C2: a matching histogram resolves, a histogram of seven unrecognised
requests ends unknown. -/
theorem guess_os_resolved_iff_some_row_witness :
    (guess_os sample_consts 2000 (sample_state hist_freebsd 0)).st.guessed = 1
      ∧ (guess_os sample_consts 2000 (sample_state hist_seven 0)).st.guessed = 2 :=
  ⟨(guess_os_resolved_iff_some_row sample_consts 2000 (sample_state hist_freebsd 0)
      (by decide) (by decide)).1 ⟨Row.freebsd, by decide⟩,
    (guess_os_resolved_iff_some_row sample_consts 2000 (sample_state hist_seven 0)
      (by decide) (by decide)).2 (by decide)⟩

/-- The classification lines of the block main.c:258-335, started with `guessed = 0`. -/
theorem outcomes_body_effects (k : HidConsts) (nl : Nat) (d : setups_data_t) :
    outcomes (body_effects k nl d)
      = (if d.count < 3 then [Msg.os_unsure] else [])
        ++ (if Row.linux_chromeos.holds d then [Row.linux_chromeos.fingerprint nl] else [])
        ++ (if Row.freebsd.holds d then [Msg.freebsd] else [])
        ++ (if Row.windows_three.holds d then [Msg.windows_three] else [])
        ++ (if Row.windows_six.holds d then [Msg.windows_six] else [])
        ++ (if Row.windows_lots.holds d then [Msg.windows_lots] else [])
        ++ (if Row.android.holds d then [Msg.android] else [])
        ++ (if Row.macos_intel.holds d then [Msg.macos_intel] else [])
        ++ (if Row.macos_arm.holds d then [Msg.macos_arm] else [])
        ++ (if guessed_after_rules d = 0 then [Msg.unknown_fingerprint] else []) := by
  simp only [outcomes, body_effects, List.filterMap_append, apply_ite (List.filterMap _),
    probe_effects, List.filterMap_cons, List.filterMap_nil, List.nil_append]

/-- C3: when exactly one of the eight fingerprint conditions holds for the histogram,
a call of `guess_os` that passes the gate with `guessed = 0` prints that row's line
and no other classification line, and ends with `guessed = 1`; in particular every
histogram with `count = 12` and `count_ff = 11` prints only the verbose-Windows
line. -/
theorem guess_os_single_row (k : HidConsts) (now : Nat) (s : State)
    (hf : gate_fires now s) (h0 : s.guessed = 0) :
    (∀ row : Row, row.holds s.setups_data →
        (∀ other : Row, other.holds s.setups_data → other = row) →
        outcomes (guess_os k now s).out = [row.fingerprint s.num_lock]
          ∧ (guess_os k now s).st.guessed = 1)
      ∧ (s.setups_data.count = 12 → s.setups_data.count_ff = 11 →
          outcomes (guess_os k now s).out = [Msg.windows_lots]
            ∧ (guess_os k now s).st.guessed = 1) := by
  rw [guess_os_fired_unresolved k now s hf h0]
  have key : ∀ row : Row, row.holds s.setups_data →
      (∀ other : Row, other.holds s.setups_data → other = row) →
      outcomes (body_effects k s.num_lock s.setups_data) = [row.fingerprint s.num_lock]
        ∧ (if guessed_after_rules s.setups_data = 0 then 2
            else guessed_after_rules s.setups_data) = 1 := by
    intro row hrow huniq
    have hg : guessed_after_rules s.setups_data = 1 :=
      (guessed_after_rules_eq_one _).2 ⟨row, hrow⟩
    have hc : ¬ s.setups_data.count < 3 :=
      fun h => no_row_of_count_lt_three _ h row hrow
    have hne : ∀ other : Row, other ≠ row → ¬ other.holds s.setups_data :=
      fun other ho h => ho (huniq other h)
    refine ⟨?_, by simp [hg]⟩
    rw [outcomes_body_effects]
    cases row <;> simp [hg, hc, hrow, hne, Row.fingerprint]
  refine ⟨key, ?_⟩
  intro hn hff
  have hrow : Row.windows_lots.holds s.setups_data := by
    simp only [Row.holds]; omega
  have huniq : ∀ other : Row, other.holds s.setups_data → other = Row.windows_lots := by
    intro other ho
    cases other <;> simp only [Row.holds] at ho <;> first | rfl | omega
  exact key Row.windows_lots hrow huniq

/-- Witness of C3: the histogram with twelve requests, eleven of them 0xFF. -/
theorem guess_os_single_row_witness :
    outcomes (guess_os sample_consts 2000 (sample_state hist_windows_lots 0)).out
        = [Msg.windows_lots]
      ∧ (guess_os sample_consts 2000 (sample_state hist_windows_lots 0)).st.guessed = 1 :=
  (guess_os_single_row sample_consts 2000 (sample_state hist_windows_lots 0)
    (by decide) (by decide)).2 (by decide) (by decide)

/-- C4, as stated, fails: on the histogram with seventeen requests, eleven of them
0xFF and six 0xFE, the call does print the Android line, so the verbose-Windows line
is not the only classification line. -/
theorem guess_os_android_also_reported :
    Msg.android ∈ outcomes (guess_os sample_consts 2000 (sample_state hist_android 0)).out
      ∧ outcomes (guess_os sample_consts 2000 (sample_state hist_android 0)).out
          ≠ [Msg.windows_lots] := by
  decide

/-- C4, amended: for every histogram with `count = 17`, `count_ff = 11` and
`count_fe = 6`, a call of `guess_os` that passes the gate with `guessed = 0` prints
the verbose-Windows line first and the Android line after it, prints nothing else,
and ends with `guessed = 1`. -/
theorem guess_os_android_histogram (k : HidConsts) (now : Nat) (s : State)
    (hf : gate_fires now s) (h0 : s.guessed = 0)
    (hn : s.setups_data.count = 17) (hff : s.setups_data.count_ff = 11)
    (hfe : s.setups_data.count_fe = 6) :
    (guess_os k now s).out = [Effect.printf Msg.windows_lots, Effect.printf Msg.android]
      ∧ (guess_os k now s).st.guessed = 1 := by
  rw [guess_os_fired_unresolved k now s hf h0]
  have hg : guessed_after_rules s.setups_data = 1 :=
    (guessed_after_rules_eq_one _).2 ⟨Row.android, by simp [Row.holds, hn, hff, hfe]⟩
  constructor
  · simp [body_effects, Row.holds, hn, hff, hfe, hg]
  · simp [hg]

/-- Witness of the amended C4. -/
theorem guess_os_android_histogram_witness :
    (guess_os sample_consts 2000 (sample_state hist_android 0)).out
        = [Effect.printf Msg.windows_lots, Effect.printf Msg.android]
      ∧ (guess_os sample_consts 2000 (sample_state hist_android 0)).st.guessed = 1 :=
  guess_os_android_histogram sample_consts 2000 (sample_state hist_android 0)
    (by decide) (by decide) (by decide) (by decide) (by decide)

/-- C6: for every histogram with `count < 3`, a call of `guess_os` that passes the
gate with `guessed = 0` ends with `guessed = 2` and its only effect is the single
"not enough headers" line: no fingerprint line, no "unknown fingerprint" line, no key
report and no delay. -/
theorem guess_os_not_enough_headers (k : HidConsts) (now : Nat) (s : State)
    (hf : gate_fires now s) (h0 : s.guessed = 0) (hn : s.setups_data.count < 3) :
    (guess_os k now s).st.guessed = 2
      ∧ (guess_os k now s).out = [Effect.printf Msg.os_unsure] := by
  rw [guess_os_fired_unresolved k now s hf h0]
  have hnone : ¬ ∃ row : Row, row.holds s.setups_data :=
    fun ⟨row, h⟩ => no_row_of_count_lt_three _ hn row h
  have hg : guessed_after_rules s.setups_data = 2 := by
    rw [guessed_after_rules_of_none _ hnone]; simp [hn]
  have hrow : ∀ row : Row, ¬ row.holds s.setups_data := fun row h => hnone ⟨row, h⟩
  constructor
  · simp [hg]
  · simp [body_effects, hg, hn, hrow]

/-- Witness of C6: two requests. -/
theorem guess_os_not_enough_headers_witness :
    (sample_state hist_two 0).setups_data.count < 3
      ∧ (guess_os sample_consts 2000 (sample_state hist_two 0)).st.guessed = 2
      ∧ (guess_os sample_consts 2000 (sample_state hist_two 0)).out
          = [Effect.printf Msg.os_unsure] :=
  ⟨by decide, guess_os_not_enough_headers sample_consts 2000 (sample_state hist_two 0)
    (by decide) (by decide) (by decide)⟩

/-! ## Terminality -/

/-- A call of `guess_os` with `guessed` non-zero changes at most its own timer and has
no effect. -/
theorem guess_os_of_guessed_ne_zero (k : HidConsts) (now : Nat) (s : State)
    (hg : s.guessed ≠ 0) :
    (guess_os k now s).st.guessed = s.guessed ∧ (guess_os k now s).out = [] := by
  by_cases hf : gate_fires now s
  · rw [guess_os_fired_terminal k now s hf hg]; exact ⟨rfl, rfl⟩
  · rw [guess_os_not_fired k now s hf]; exact ⟨rfl, rfl⟩

/-- Only `guess_os` writes `guessed`. -/
theorem exec_guessed_of_ne_zero (k : HidConsts) (c : Call) (s : State) (hg : s.guessed ≠ 0) :
    (c.exec k s).st.guessed = s.guessed := by
  cases c with
  | guess_os now => exact (guess_os_of_guessed_ne_zero k now s hg).1
  | process_wlength di wi wl => simp [Call.exec, process_wlength, Run.start, Run.printf]
  | tud_hid_set_report_cb i id ty buf n =>
    simp only [Call.exec, tud_hid_set_report_cb, Run.start, Run.printf]
    split_ifs <;> rfl
  | tud_mount_cb => rfl
  | tud_umount_cb => rfl
  | tud_suspend_cb en => rfl
  | tud_resume_cb => rfl
  | led_blinking_task now =>
    simp only [Call.exec, led_blinking_task, Run.start]
    split_ifs <;> rfl

theorem exec_all_guessed_of_ne_zero (k : HidConsts) (cs : List Call) :
    ∀ s : State, s.guessed ≠ 0 → (exec_all k cs s).guessed = s.guessed := by
  induction cs with
  | nil => intro s _; rfl
  | cons c cs ih =>
    intro s hg
    have h1 := exec_guessed_of_ne_zero k c s hg
    simp only [exec_all]
    rw [ih _ (by rw [h1]; exact hg), h1]

/-- C7: if `guessed` is 1 or 2 (indeed any non-zero value) before a call of
`guess_os`, then for every clock value, histogram and latch value the call leaves
`guessed` unchanged and has no effect at all (no classification line, no key report);
and after every sequence of calls of `guess_os`, `process_wlength`,
`tud_hid_set_report_cb` and the other entry points, `guessed` still has that value. -/
theorem guessed_terminal (k : HidConsts) (now : Nat) (cs : List Call) (s : State)
    (hg : s.guessed ≠ 0) :
    (guess_os k now s).st.guessed = s.guessed
      ∧ (guess_os k now s).out = []
      ∧ (exec_all k cs s).guessed = s.guessed :=
  ⟨(guess_os_of_guessed_ne_zero k now s hg).1, (guess_os_of_guessed_ne_zero k now s hg).2,
    exec_all_guessed_of_ne_zero k cs s hg⟩

/-- Witness of C7: a resolved state, a later gate firing on an Android-looking
histogram, more requests and an LED report. -/
theorem guessed_terminal_witness :
    ({ sample_state hist_android 0 with guessed := 1 } : State).guessed ≠ 0
      ∧ (guess_os sample_consts 4000 { sample_state hist_android 0 with guessed := 1 }).st.guessed
          = 1
      ∧ (guess_os sample_consts 4000 { sample_state hist_android 0 with guessed := 1 }).out = []
      ∧ (exec_all sample_consts
            [Call.process_wlength 0 0 0xFF, Call.tud_hid_set_report_cb 0 1 2 [1] 1,
              Call.guess_os 4000]
            { sample_state hist_android 0 with guessed := 1 }).guessed = 1 :=
  ⟨by decide,
    guessed_terminal sample_consts 4000
      [Call.process_wlength 0 0 0xFF, Call.tud_hid_set_report_cb 0 1 2 [1] 1,
        Call.guess_os 4000]
      { sample_state hist_android 0 with guessed := 1 } (by decide)⟩

/-! ## The Active Probe -/

/-- Without the first fingerprint condition the block main.c:258-335 only prints. -/
theorem body_effects_no_probe (k : HidConsts) (nl : Nat) (d : setups_data_t)
    (h : ¬ Row.linux_chromeos.holds d) :
    ∀ e ∈ body_effects k nl d, e.is_probe = false := by
  intro e he
  simp only [body_effects, h, if_false, List.append_nil, List.mem_append] at he
  rcases he with ((((((((he | he) | he) | he) | he) | he) | he) | he) | he) <;>
    split_ifs at he <;> simp_all [Effect.is_probe]

/-- C10: a call of `guess_os` sends a key report or performs a blocking delay if and
only if the gate fires, `guessed = 0`, `count = 5` and `count_ff = 5`; in particular
every histogram with `count = 8`, `count_2 = 4`, `count_E = 1`, `count_1E = 1`
resolves to FreeBSD and the only effect of the call is the FreeBSD line. -/
theorem probe_only_for_ambiguous_row (k : HidConsts) (now : Nat) (s : State) :
    ((∃ e ∈ (guess_os k now s).out, e.is_probe = true)
        ↔ gate_fires now s ∧ s.guessed = 0
            ∧ s.setups_data.count = 5 ∧ s.setups_data.count_ff = 5)
      ∧ (gate_fires now s → s.guessed = 0 → s.setups_data.count = 8 →
          s.setups_data.count_2 = 4 → s.setups_data.count_E = 1 →
          s.setups_data.count_1E = 1 →
          (guess_os k now s).out = [Effect.printf Msg.freebsd]
            ∧ (guess_os k now s).st.guessed = 1) := by
  constructor
  · by_cases hf : gate_fires now s
    · by_cases h0 : s.guessed = 0
      · rw [guess_os_fired_unresolved k now s hf h0]
        by_cases hrow : Row.linux_chromeos.holds s.setups_data
        · have hrow2 : s.setups_data.count = 5 ∧ s.setups_data.count_ff = 5 := hrow
          refine ⟨fun _ => ⟨hf, h0, hrow2⟩, fun _ => ?_⟩
          refine ⟨Effect.sleep_ms 255, ?_, rfl⟩
          simp [body_effects, hrow, probe_effects]
        · have hrow2 : ¬ (s.setups_data.count = 5 ∧ s.setups_data.count_ff = 5) := hrow
          constructor
          · rintro ⟨e, he, hp⟩
            have := body_effects_no_probe k s.num_lock s.setups_data hrow e he
            simp [this] at hp
          · rintro ⟨_, _, h⟩
            exact absurd h hrow2
      · rw [guess_os_fired_terminal k now s hf h0]
        simp [h0]
    · rw [guess_os_not_fired k now s hf]
      simp [hf]
  · intro hf h0 hn h2 hE h1E
    rw [guess_os_fired_unresolved k now s hf h0]
    have hg : guessed_after_rules s.setups_data = 1 :=
      (guessed_after_rules_eq_one _).2 ⟨Row.freebsd, by simp [Row.holds, hn, h2, hE, h1E]⟩
    constructor
    · simp [body_effects, Row.holds, hn, h2, hE, h1E, hg]
    · simp [hg]

/-- Witness of C10: the FreeBSD histogram resolves without any probe effect, the
Linux histogram triggers the probe. -/
theorem probe_only_for_ambiguous_row_witness :
    ((guess_os sample_consts 2000 (sample_state hist_freebsd 0)).out
          = [Effect.printf Msg.freebsd]
        ∧ (guess_os sample_consts 2000 (sample_state hist_freebsd 0)).st.guessed = 1)
      ∧ ∃ e ∈ (guess_os sample_consts 2000 (sample_state hist_linux 0)).out,
          e.is_probe = true :=
  ⟨(probe_only_for_ambiguous_row sample_consts 2000 (sample_state hist_freebsd 0)).2
      (by decide) (by decide) (by decide) (by decide) (by decide) (by decide),
    (probe_only_for_ambiguous_row sample_consts 2000 (sample_state hist_linux 0)).1.2
      ⟨by decide, by decide, by decide, by decide⟩⟩

/-! ## The histogram -/

theorem observe_all_append (cs : List (Nat × Nat × Nat)) (c : Nat × Nat × Nat) :
    ∀ s : State, observe_all (cs ++ [c]) s
      = (process_wlength c.1 c.2.1 c.2.2 (observe_all cs s)).st := by
  induction cs with
  | nil => intro s; rfl
  | cons a cs ih => intro s; exact ih _

theorem histogram_append (cs : List (Nat × Nat × Nat)) (c : Nat × Nat × Nat) :
    histogram (cs ++ [c])
      = (process_wlength c.1 c.2.1 c.2.2 (observe_all cs State.init)).st.setups_data := by
  unfold histogram
  rw [observe_all_append]

theorem calls_with_append (v : Nat) (cs : List (Nat × Nat × Nat)) (c : Nat × Nat × Nat) :
    calls_with v (cs ++ [c]) = calls_with v cs + if c.2.2 = v then 1 else 0 := by
  unfold calls_with
  by_cases h : c.2.2 = v <;> simp [List.filter_append, List.filter_cons, h]

theorem process_wlength_count (di wi wl : Nat) (s : State) :
    (process_wlength di wi wl s).st.setups_data.count = u8_inc s.setups_data.count := by
  simp only [process_wlength, Run.start, Run.printf]
  split_ifs <;> rfl

theorem process_wlength_last (di wi wl : Nat) (s : State) :
    (process_wlength di wi wl s).st.setups_data.last_wlength = wl := by
  simp only [process_wlength, Run.start, Run.printf]
  split_ifs <;> rfl

theorem process_wlength_buckets (di wi wl : Nat) (s : State) :
    buckets (process_wlength di wi wl s).st.setups_data
      = [if wl = 0x402 then u8_inc s.setups_data.count_402 else s.setups_data.count_402,
          if wl = 0x20A then u8_inc s.setups_data.count_20A else s.setups_data.count_20A,
          if wl = 0x2 then u8_inc s.setups_data.count_2 else s.setups_data.count_2,
          if wl = 0x4 then u8_inc s.setups_data.count_4 else s.setups_data.count_4,
          if wl = 0xE then u8_inc s.setups_data.count_E else s.setups_data.count_E,
          if wl = 0x1E then u8_inc s.setups_data.count_1E else s.setups_data.count_1E,
          if wl = 0x10 then u8_inc s.setups_data.count_10 else s.setups_data.count_10,
          if wl = 0xFF then u8_inc s.setups_data.count_ff else s.setups_data.count_ff,
          if wl = 0xFE then u8_inc s.setups_data.count_fe else s.setups_data.count_fe] := by
  unfold process_wlength
  simp only [Run.start, Run.printf]
  by_cases h1 : wl = 0x402
  · simp [h1, buckets]
  by_cases h2 : wl = 0x20A
  · simp [h2, buckets]
  by_cases h3 : wl = 0x2
  · simp [h3, buckets]
  by_cases h4 : wl = 0x4
  · simp [h4, buckets]
  by_cases h5 : wl = 0xE
  · simp [h5, buckets]
  by_cases h6 : wl = 0x1E
  · simp [h6, buckets]
  by_cases h7 : wl = 0x10
  · simp [h7, buckets]
  by_cases h8 : wl = 0xFF
  · simp [h8, buckets]
  by_cases h9 : wl = 0xFE
  · simp [h9, buckets]
  simp [h1, h2, h3, h4, h5, h6, h7, h8, h9, buckets]

/-- Every counter of the histogram is the matching number of calls modulo `2^8`. -/
theorem histogram_mod (cs : List (Nat × Nat × Nat)) :
    (histogram cs).count = cs.length % 256
      ∧ buckets (histogram cs) = bucket_values.map (fun v => calls_with v cs % 256) := by
  induction cs using List.reverseRecOn with
  | nil => exact ⟨rfl, rfl⟩
  | append_singleton cs c ih =>
    obtain ⟨ihc, ihb⟩ := ih
    rw [histogram_append]
    constructor
    · rw [process_wlength_count]
      have : (observe_all cs State.init).setups_data.count = cs.length % 256 := ihc
      rw [this, List.length_append, List.length_singleton]
      unfold u8_inc
      omega
    · rw [process_wlength_buckets]
      have hb : buckets (observe_all cs State.init).setups_data
          = bucket_values.map (fun v => calls_with v cs % 256) := ihb
      simp only [buckets, bucket_values, List.map_cons, List.map_nil, List.cons.injEq,
        and_true] at hb
      obtain ⟨e1, e2, e3, e4, e5, e6, e7, e8, e9⟩ := hb
      simp only [bucket_values, List.map_cons, List.map_nil, calls_with_append, e1, e2, e3,
        e4, e5, e6, e7, e8, e9, u8_inc]
      refine congrArg₂ _ ?_ (congrArg₂ _ ?_ (congrArg₂ _ ?_ (congrArg₂ _ ?_ (congrArg₂ _ ?_
        (congrArg₂ _ ?_ (congrArg₂ _ ?_ (congrArg₂ _ ?_ (congrArg₂ _ ?_ rfl)))))))) <;>
        split_ifs <;> omega

/-- A request is counted in at most one bucket. -/
theorem calls_with_sum_le (cs : List (Nat × Nat × Nat)) :
    (bucket_values.map (fun v => calls_with v cs)).sum ≤ cs.length := by
  induction cs with
  | nil => simp [bucket_values, calls_with]
  | cons c cs ih =>
    simp only [bucket_values, List.map_cons, List.map_nil, List.sum_cons, List.sum_nil,
      calls_with, List.filter_cons, List.length_cons] at ih ⊢
    by_cases h1 : c.2.2 = 0x402
    · simp [h1]; omega
    by_cases h2 : c.2.2 = 0x20A
    · simp [h2]; omega
    by_cases h3 : c.2.2 = 0x2
    · simp [h3]; omega
    by_cases h4 : c.2.2 = 0x4
    · simp [h4]; omega
    by_cases h5 : c.2.2 = 0xE
    · simp [h5]; omega
    by_cases h6 : c.2.2 = 0x1E
    · simp [h6]; omega
    by_cases h7 : c.2.2 = 0x10
    · simp [h7]; omega
    by_cases h8 : c.2.2 = 0xFF
    · simp [h8]; omega
    by_cases h9 : c.2.2 = 0xFE
    · simp [h9]; omega
    simp [h1, h2, h3, h4, h5, h6, h7, h8, h9]; omega

theorem calls_with_le_length (v : Nat) (cs : List (Nat × Nat × Nat)) :
    calls_with v cs ≤ cs.length :=
  List.length_filter_le _ _

/-- Up to 255 calls no counter has wrapped. -/
theorem histogram_exact (cs : List (Nat × Nat × Nat)) (h : cs.length ≤ 255) :
    (histogram cs).count = cs.length
      ∧ buckets (histogram cs) = bucket_values.map (fun v => calls_with v cs) := by
  obtain ⟨hc, hb⟩ := histogram_mod cs
  refine ⟨by rw [hc]; omega, ?_⟩
  rw [hb]
  apply List.map_congr_left
  intro v _
  have := calls_with_le_length v cs
  show calls_with v cs % 256 = calls_with v cs
  omega

theorem buckets_sum_le_count (cs : List (Nat × Nat × Nat)) (h : cs.length ≤ 255) :
    (buckets (histogram cs)).sum ≤ (histogram cs).count := by
  obtain ⟨hc, hb⟩ := histogram_exact cs h
  rw [hc, hb]
  exact calls_with_sum_le cs

/-- C5, as stated, fails: after eleven requests of wLength 0xFF and six of 0xFE (no
counter has wrapped) both the verbose-Windows condition and the Android condition
hold. -/
theorem rows_overlap_on_android :
    calls_android.length ≤ 255
      ∧ Row.windows_lots.holds (histogram calls_android)
      ∧ Row.android.holds (histogram calls_android)
      ∧ Row.windows_lots ≠ Row.android := by
  decide

/-- C5, amended: for every histogram reached by at most 255 `process_wlength` calls
from power-on (no counter has wrapped), two different fingerprint conditions hold
together only if they are the verbose-Windows condition and the Android condition;
and on every histogram the Android condition implies the verbose-Windows one. -/
theorem rows_disjoint_except_android (cs : List (Nat × Nat × Nat)) (h : cs.length ≤ 255)
    (r1 r2 : Row) (h1 : r1.holds (histogram cs)) (h2 : r2.holds (histogram cs)) :
    (r1 = r2 ∨ (r1 = Row.windows_lots ∧ r2 = Row.android)
        ∨ (r1 = Row.android ∧ r2 = Row.windows_lots))
      ∧ ∀ d : setups_data_t, Row.android.holds d → Row.windows_lots.holds d := by
  constructor
  · have hsum := buckets_sum_le_count cs h
    simp only [buckets, List.sum_cons, List.sum_nil] at hsum
    cases r1 <;> cases r2 <;> simp only [Row.holds] at h1 h2 <;>
      first
        | exact Or.inl rfl
        | exact Or.inr (Or.inl ⟨rfl, rfl⟩)
        | exact Or.inr (Or.inr ⟨rfl, rfl⟩)
        | (exfalso; omega)
  · intro d hd
    simp only [Row.holds] at hd ⊢
    omega

/-- Witness of the amended C5 on the Android sequence. -/
theorem rows_disjoint_except_android_witness :
    calls_android.length ≤ 255
      ∧ (Row.windows_lots = Row.android
          ∨ (Row.windows_lots = Row.windows_lots ∧ Row.android = Row.android)
          ∨ (Row.windows_lots = Row.android ∧ Row.android = Row.windows_lots)) :=
  ⟨by decide,
    (rows_disjoint_except_android calls_android (by decide) Row.windows_lots Row.android
      (by decide) (by decide)).1⟩

/-- C8, as stated, fails: after 256 calls `count` is 0, not 256. -/
theorem count_wraps_at_256 :
    calls_256.length = 256 ∧ (histogram calls_256).count = 0
      ∧ (histogram calls_256).count ≠ calls_256.length := by
  have h := (histogram_mod calls_256).1
  have hl : calls_256.length = 256 := List.length_replicate _ _
  rw [hl] at h
  refine ⟨hl, h, ?_⟩
  rw [h, hl]
  decide

/-- C8, amended: after every finite sequence of `process_wlength` calls from power-on,
`count` is the number of calls modulo 256 and each bucket counter is the number of
calls with exactly its wLength, modulo 256; for at most 255 calls they are these
numbers themselves. A call whose wLength is none of the nine values changes no
bucket, and after every call `last_wlength` is the wLength of that call. -/
theorem histogram_counts (cs : List (Nat × Nat × Nat)) :
    ((histogram cs).count = cs.length % 256
        ∧ buckets (histogram cs) = bucket_values.map (fun v => calls_with v cs % 256))
      ∧ (cs.length ≤ 255 →
          (histogram cs).count = cs.length
            ∧ buckets (histogram cs) = bucket_values.map (fun v => calls_with v cs))
      ∧ (∀ (di wi wl : Nat) (s : State), wl ∉ bucket_values →
          buckets (process_wlength di wi wl s).st.setups_data = buckets s.setups_data)
      ∧ (∀ (di wi wl : Nat) (s : State),
          (process_wlength di wi wl s).st.setups_data.last_wlength = wl) := by
  refine ⟨histogram_mod cs, histogram_exact cs, ?_, process_wlength_last⟩
  intro di wi wl s hwl
  rw [process_wlength_buckets]
  simp only [bucket_values, List.mem_cons, List.mem_singleton, List.not_mem_nil, or_false,
    not_or] at hwl
  obtain ⟨h1, h2, h3, h4, h5, h6, h7, h8, h9⟩ := hwl
  simp [h1, h2, h3, h4, h5, h6, h7, h8, h9, buckets]

/-- Witness of the amended C8: three calls, one of them with an unrecognised
wLength. -/
theorem histogram_counts_witness :
    calls_three.length ≤ 255
      ∧ (histogram calls_three).count = 3
      ∧ buckets (histogram calls_three) = [0, 0, 1, 0, 0, 0, 0, 1, 0]
      ∧ buckets (process_wlength 1 0x409 0x40 State.init).st.setups_data
          = buckets State.init.setups_data :=
  ⟨by decide,
    ((histogram_counts calls_three).2.1 (by decide)).1,
    ((histogram_counts calls_three).2.1 (by decide)).2.trans (by decide),
    (histogram_counts calls_three).2.2.1 1 0x409 0x40 State.init (by decide)⟩

/-- C9, as stated, fails: the 256th call takes `count` from 255 back to 0, and in the
histogram it leaves the 0xFF bucket (255) exceeds `count` (0). -/
theorem count_decreases_on_wrap :
    (histogram (calls_255 ++ [(0, 0, 0x2)])).count < (histogram calls_255).count
      ∧ (histogram (calls_255 ++ [(0, 0, 0x2)])).count
          < (histogram (calls_255 ++ [(0, 0, 0x2)])).count_ff := by
  have hl : calls_255.length = 255 := List.length_replicate _ _
  have hff : calls_with 0xFF calls_255 = 255 := by
    unfold calls_with calls_255
    rw [List.filter_replicate_of_pos (by decide), List.length_replicate]
  have h1 := (histogram_mod calls_255).1
  obtain ⟨h2, h3⟩ := histogram_mod (calls_255 ++ [(0, 0, 0x2)])
  simp only [buckets, bucket_values, List.map_cons, List.map_nil, List.cons.injEq,
    and_true, calls_with_append] at h3
  rw [List.length_append, List.length_singleton, hl] at h2
  rw [hl] at h1
  rw [h1, h2, h3.2.2.2.2.2.2.2.1, hff]
  decide

/-- C9, amended: along every sequence of at most 255 `process_wlength` calls from
power-on, no call decreases `count` or any bucket counter, and no bucket counter
exceeds `count`. -/
theorem histogram_monotone_bounded (cs : List (Nat × Nat × Nat)) (h : cs.length ≤ 255) :
    (∀ b ∈ buckets (histogram cs), b ≤ (histogram cs).count)
      ∧ ∀ (pre : List (Nat × Nat × Nat)) (c : Nat × Nat × Nat) (rest : List (Nat × Nat × Nat)),
          cs = pre ++ c :: rest →
          (histogram pre).count ≤ (histogram (pre ++ [c])).count
            ∧ List.Forall₂ (fun b b2 => b ≤ b2) (buckets (histogram pre))
                (buckets (histogram (pre ++ [c]))) := by
  constructor
  · obtain ⟨hc, hb⟩ := histogram_exact cs h
    intro b hmem
    rw [hb] at hmem
    obtain ⟨v, _, rfl⟩ := List.mem_map.1 hmem
    rw [hc]
    exact calls_with_le_length v cs
  · intro pre c rest hcs
    have hlen : (pre ++ [c]).length ≤ 255 := by
      have : cs.length = pre.length + (rest.length + 1) := by
        rw [hcs, List.length_append, List.length_cons]
      rw [List.length_append, List.length_singleton]
      omega
    have hpre : pre.length ≤ 255 := by
      rw [List.length_append, List.length_singleton] at hlen
      omega
    obtain ⟨hc1, hb1⟩ := histogram_exact pre hpre
    obtain ⟨hc2, hb2⟩ := histogram_exact (pre ++ [c]) hlen
    rw [hc1, hc2, hb1, hb2]
    refine ⟨by rw [List.length_append]; omega, ?_⟩
    simp only [bucket_values, List.map_cons, List.map_nil, calls_with_append,
      List.forall₂_cons, List.Forall₂.nil, and_true]
    refine ⟨?_, ?_, ?_, ?_, ?_, ?_, ?_, ?_, ?_⟩ <;> omega

/-- Witness of the amended C9 on a sequence of three calls. -/
theorem histogram_monotone_bounded_witness :
    calls_three.length ≤ 255
      ∧ (∀ b ∈ buckets (histogram calls_three), b ≤ (histogram calls_three).count)
      ∧ (histogram [(0, 0, 0xFF)]).count ≤ (histogram ([(0, 0, 0xFF)] ++ [(1, 0x409, 0x40)])).count :=
  ⟨by decide,
    (histogram_monotone_bounded calls_three (by decide)).1,
    ((histogram_monotone_bounded calls_three (by decide)).2 [(0, 0, 0xFF)] (1, 0x409, 0x40)
      [(2, 0x409, 0x2)] rfl).1⟩

/-! ## The effects of the Active Probe -/

/-- Every effect of the block main.c:258-335 is a diagnostic line or one of the
effects of the four toggles. -/
theorem body_effects_mem (k : HidConsts) (nl : Nat) (d : setups_data_t) :
    ∀ e ∈ body_effects k nl d, (∃ m, e = Effect.printf m) ∨ e ∈ probe_effects k := by
  intro e he
  simp only [body_effects, List.mem_append] at he
  rcases he with (((((((((he | he) | he) | he) | he) | he) | he) | he) | he) | he) <;>
    split_ifs at he <;> first | (simp_all; done) | skip
  simp only [List.mem_append, List.mem_singleton] at he
  rcases he with he | he
  · exact Or.inr he
  · exact Or.inl ⟨_, he⟩

/-- Every keyboard report any entry point sends has the keyboard report id, modifier
0 and the key array with Num Lock in slot 0. -/
theorem exec_key_report (k : HidConsts) (c : Call) (s : State) (id m : Nat) (kc : List Nat)
    (h : Effect.tud_hid_keyboard_report id m kc ∈ (c.exec k s).out) :
    id = k.REPORT_ID_KEYBOARD ∧ m = 0 ∧ kc = [k.HID_KEY_NUM_LOCK, 0, 0, 0, 0, 0] := by
  cases c with
  | guess_os now =>
    simp only [Call.exec] at h
    by_cases hf : gate_fires now s
    · by_cases h0 : s.guessed = 0
      · rw [guess_os_fired_unresolved k now s hf h0] at h
        rcases body_effects_mem k s.num_lock s.setups_data _ h with ⟨msg, hm⟩ | hp
        · cases hm
        · simp only [probe_effects, List.mem_cons, Effect.tud_hid_keyboard_report.injEq,
            List.mem_singleton, List.not_mem_nil, or_false, reduceCtorEq, false_or,
            or_self] at hp
          exact hp
      · rw [guess_os_fired_terminal k now s hf h0] at h
        simp at h
    · rw [guess_os_not_fired k now s hf] at h
      simp at h
  | process_wlength di wi wl =>
    simp [Call.exec, process_wlength, Run.start, Run.printf] at h
  | tud_hid_set_report_cb i rid ty buf n =>
    simp only [Call.exec, tud_hid_set_report_cb, Run.start, Run.printf] at h
    split_ifs at h <;> simp at h
  | tud_mount_cb => simp [Call.exec, tud_mount_cb, Run.start] at h
  | tud_umount_cb => simp [Call.exec, tud_umount_cb, Run.start] at h
  | tud_suspend_cb en => simp [Call.exec, tud_suspend_cb, Run.start] at h
  | tud_resume_cb => simp [Call.exec, tud_resume_cb, Run.start] at h
  | led_blinking_task now =>
    simp only [Call.exec, led_blinking_task, Run.start] at h
    split_ifs at h <;> simp at h

/-- The block main.c:258-335 in closed form when the environment may write the latch
during the delays of the probe. -/
theorem guess_os_body_env_eq (k : HidConsts) (env : LatchEnv) (s : State) (o : List Effect)
    (h0 : s.guessed = 0) :
    guess_os_body_env k env ⟨s, o⟩
      = ⟨{ s with
            guessed := if guessed_after_rules s.setups_data = 0 then 2
                        else guessed_after_rules s.setups_data,
            num_lock := if Row.linux_chromeos.holds s.setups_data then
                          env 3 (env 2 (env 1 (env 0 s.num_lock)))
                        else s.num_lock },
          o ++ body_effects k
            (if Row.linux_chromeos.holds s.setups_data then
              env 3 (env 2 (env 1 (env 0 s.num_lock))) else s.num_lock)
            s.setups_data⟩ := by
  obtain ⟨g, nl, b, d, gs, ls, lst⟩ := s
  simp only at h0
  subst h0
  by_cases h : Row.linux_chromeos.holds d <;>
    simp only [guess_os_body_env, check_not_enough_mk, check_linux_chromeos_env_mk,
      check_freebsd_mk, check_windows_three_mk, check_windows_six_mk, check_windows_lots_mk,
      check_android_mk, check_macos_intel_mk, check_macos_arm_mk, check_still_unknown_mk,
      guessed_after_rules, body_effects, List.append_assoc, h, if_true, if_false]

/-- A call of `guess_os` that passes the gate with `guessed = 0`, in closed form when
the environment may write the latch during the delays of the probe. -/
theorem guess_os_env_fired_unresolved (k : HidConsts) (env : LatchEnv) (now : Nat)
    (s : State) (h : gate_fires now s) (hg : s.guessed = 0) :
    guess_os_env k env now s
      = ⟨{ s with
            guess_start_ms := u32_add s.guess_start_ms interval_ms,
            guessed := if guessed_after_rules s.setups_data = 0 then 2
                        else guessed_after_rules s.setups_data,
            num_lock := if Row.linux_chromeos.holds s.setups_data then
                          env 3 (env 2 (env 1 (env 0 s.num_lock)))
                        else s.num_lock },
          body_effects k
            (if Row.linux_chromeos.holds s.setups_data then
              env 3 (env 2 (env 1 (env 0 s.num_lock))) else s.num_lock)
            s.setups_data⟩ := by
  unfold gate_fires at h
  unfold guess_os_env
  simp only [Run.start]
  rw [if_neg h, if_pos ⟨hg, by omega⟩]
  have hb := guess_os_body_env_eq k env
    { s with guess_start_ms := u32_add s.guess_start_ms interval_ms } [] hg
  rw [hb]
  simp only [List.nil_append]

/-- With the idle environment the general form of `guess_os` is `guess_os`. -/
theorem guess_os_env_idle (k : HidConsts) (now : Nat) (s : State) :
    guess_os_env k idle_env now s = guess_os k now s := rfl

/-- C11: whenever the Active Probe runs (the gate fires with `guessed = 0`,
`count = 5`, `count_ff = 5`) the effects of the call are exactly: key report with
modifier 0 and the six byte key array holding Num Lock in slot 0, delay of 255 ms,
four times in that order, and only then the line that depends on `num_lock`; that is
four reports, four delays and 1020 ms of delay in total. No entry point of the
program ever sends a report with another modifier or key array. The latch is read
only after the fourth delay: whatever the environment writes into `num_lock` during
the four delays, the effects are the same four toggles, the latch is left as the
environment made it, and the line printed is the Linux line exactly when the latch
is 1 after the fourth delay, whatever its value was before or during the earlier
delays. -/
theorem probe_effects_exact (k : HidConsts) (now : Nat) (s : State)
    (hf : gate_fires now s) (h0 : s.guessed = 0)
    (hn : s.setups_data.count = 5) (hff : s.setups_data.count_ff = 5) :
    (guess_os k now s).out
        = [Effect.tud_hid_keyboard_report k.REPORT_ID_KEYBOARD 0 [k.HID_KEY_NUM_LOCK, 0, 0, 0, 0, 0],
            Effect.sleep_ms 255,
            Effect.tud_hid_keyboard_report k.REPORT_ID_KEYBOARD 0 [k.HID_KEY_NUM_LOCK, 0, 0, 0, 0, 0],
            Effect.sleep_ms 255,
            Effect.tud_hid_keyboard_report k.REPORT_ID_KEYBOARD 0 [k.HID_KEY_NUM_LOCK, 0, 0, 0, 0, 0],
            Effect.sleep_ms 255,
            Effect.tud_hid_keyboard_report k.REPORT_ID_KEYBOARD 0 [k.HID_KEY_NUM_LOCK, 0, 0, 0, 0, 0],
            Effect.sleep_ms 255,
            Effect.printf (if s.num_lock = 1 then Msg.linux else Msg.chromeos)]
      ∧ (key_reports (guess_os k now s).out).length = 4
      ∧ (delays (guess_os k now s).out).length = 4
      ∧ total_delay (guess_os k now s).out = 1020
      ∧ (∀ (c : Call) (s2 : State) (id m : Nat) (kc : List Nat),
          Effect.tud_hid_keyboard_report id m kc ∈ (c.exec k s2).out →
          id = k.REPORT_ID_KEYBOARD ∧ m = 0 ∧ kc = [k.HID_KEY_NUM_LOCK, 0, 0, 0, 0, 0])
      ∧ (guess_os_env k idle_env now s = guess_os k now s)
      ∧ ∀ env : LatchEnv,
          (guess_os_env k env now s).out
              = [Effect.tud_hid_keyboard_report k.REPORT_ID_KEYBOARD 0 [k.HID_KEY_NUM_LOCK, 0, 0, 0, 0, 0],
                  Effect.sleep_ms 255,
                  Effect.tud_hid_keyboard_report k.REPORT_ID_KEYBOARD 0 [k.HID_KEY_NUM_LOCK, 0, 0, 0, 0, 0],
                  Effect.sleep_ms 255,
                  Effect.tud_hid_keyboard_report k.REPORT_ID_KEYBOARD 0 [k.HID_KEY_NUM_LOCK, 0, 0, 0, 0, 0],
                  Effect.sleep_ms 255,
                  Effect.tud_hid_keyboard_report k.REPORT_ID_KEYBOARD 0 [k.HID_KEY_NUM_LOCK, 0, 0, 0, 0, 0],
                  Effect.sleep_ms 255,
                  Effect.printf (if env 3 (env 2 (env 1 (env 0 s.num_lock))) = 1 then Msg.linux
                    else Msg.chromeos)]
            ∧ (guess_os_env k env now s).st.num_lock = env 3 (env 2 (env 1 (env 0 s.num_lock)))
            ∧ (guess_os_env k env now s).st.guessed = 1 := by
  have hrow : Row.linux_chromeos.holds s.setups_data := ⟨hn, hff⟩
  have hg : guessed_after_rules s.setups_data = 1 :=
    (guessed_after_rules_eq_one _).2 ⟨Row.linux_chromeos, hrow⟩
  have henv : ∀ env : LatchEnv,
      (guess_os_env k env now s).out
          = probe_effects k
            ++ [Effect.printf (if env 3 (env 2 (env 1 (env 0 s.num_lock))) = 1 then Msg.linux
                  else Msg.chromeos)]
        ∧ (guess_os_env k env now s).st.num_lock = env 3 (env 2 (env 1 (env 0 s.num_lock)))
        ∧ (guess_os_env k env now s).st.guessed = 1 := by
    intro env
    rw [guess_os_env_fired_unresolved k env now s hf h0]
    refine ⟨?_, ?_, ?_⟩
    · simp [body_effects, Row.holds, Row.fingerprint, hn, hff, hg]
    · simp [hrow]
    · simp [hg]
  have hout : (guess_os k now s).out
      = probe_effects k ++ [Effect.printf (if s.num_lock = 1 then Msg.linux else Msg.chromeos)] :=
    (henv idle_env).1
  rw [hout]
  refine ⟨rfl, rfl, rfl, rfl, ?_, rfl, ?_⟩
  · intro c s2 id m kc h
    exact exec_key_report k c s2 id m kc h
  · intro env
    exact henv env

/-- Witness of C11 on the histogram of five 0xFF requests; when the LED report
arrives during the fourth delay, the latch being 0 until then, the result is
Linux. -/
theorem probe_effects_exact_witness :
    (key_reports (guess_os sample_consts 2000 (sample_state hist_linux 1)).out).length = 4
      ∧ (delays (guess_os sample_consts 2000 (sample_state hist_linux 1)).out).length = 4
      ∧ total_delay (guess_os sample_consts 2000 (sample_state hist_linux 1)).out = 1020
      ∧ (guess_os_env sample_consts env_fourth_delay 2000 (sample_state hist_linux 0)).out
          = probe_effects sample_consts ++ [Effect.printf Msg.linux]
      ∧ (guess_os sample_consts 2000 (sample_state hist_linux 0)).out
          = probe_effects sample_consts ++ [Effect.printf Msg.chromeos] :=
  ⟨(probe_effects_exact sample_consts 2000 (sample_state hist_linux 1)
      (by decide) (by decide) (by decide) (by decide)).2.1,
    (probe_effects_exact sample_consts 2000 (sample_state hist_linux 1)
      (by decide) (by decide) (by decide) (by decide)).2.2.1,
    (probe_effects_exact sample_consts 2000 (sample_state hist_linux 1)
      (by decide) (by decide) (by decide) (by decide)).2.2.2.1,
    ((probe_effects_exact sample_consts 2000 (sample_state hist_linux 0)
      (by decide) (by decide) (by decide) (by decide)).2.2.2.2.2.2 env_fourth_delay).1,
    (probe_effects_exact sample_consts 2000 (sample_state hist_linux 0)
      (by decide) (by decide) (by decide) (by decide)).1⟩

/-! ## The gate -/

/-- The model of the `uint32_t` subtraction is subtraction of integers modulo
`2^32`. -/
theorem u32_sub_eq_emod (a b : Nat) :
    (u32_sub a b : Int) = ((a : Int) - (b : Int)) % 4294967296 := by
  unfold u32_sub
  omega

/-- A call that passes the gate advances the timer by one window, whatever the value
of `guessed`. -/
theorem guess_os_fired_start (k : HidConsts) (now : Nat) (s : State) (h : gate_fires now s) :
    (guess_os k now s).st.guess_start_ms = u32_add s.guess_start_ms interval_ms := by
  by_cases h0 : s.guessed = 0
  · rw [guess_os_fired_unresolved k now s h h0]
  · rw [guess_os_fired_terminal k now s h h0]

/-- C12: for every timer value and clock value, a call of `guess_os` passes the gate
if and only if the 32-bit difference `now - start_ms` is at least 2000; when it
passes, `start_ms` becomes `start_ms + 2000` as a `uint32_t` (the sum modulo `2^32`,
which is the plain sum whenever that is below `2^32`) and not `now`; when it does not
pass, the whole state is unchanged and nothing is emitted. -/
theorem gate_step (k : HidConsts) (now : Nat) (s : State) :
    (gate_fires now s
        ↔ (2000 : Int) ≤ ((now : Int) - (s.guess_start_ms : Int)) % 4294967296)
      ∧ (gate_fires now s →
          (guess_os k now s).st.guess_start_ms = (s.guess_start_ms + 2000) % 4294967296
            ∧ (s.guess_start_ms + 2000 < 4294967296 →
                (guess_os k now s).st.guess_start_ms = s.guess_start_ms + 2000))
      ∧ (¬ gate_fires now s → guess_os k now s = ⟨s, []⟩) := by
  refine ⟨?_, ?_, guess_os_not_fired k now s⟩
  · have h := u32_sub_eq_emod now s.guess_start_ms
    unfold gate_fires interval_ms
    omega
  · intro hf
    rw [guess_os_fired_start k now s hf]
    unfold u32_add interval_ms
    constructor
    · rfl
    · intro hlt
      exact Nat.mod_eq_of_lt hlt

/-- Witness of C12: at power-on a reading of 5000 ms passes the gate and moves
`start_ms` to 2000, not to 5000; a reading of 1999 ms changes nothing; and after
2147483 windows a reading of 704 ms (the clock has wrapped) passes the gate and the
32-bit sum wraps as well. -/
theorem gate_step_witness :
    gate_fires 5000 State.init
      ∧ (guess_os sample_consts 5000 State.init).st.guess_start_ms = 0 + 2000
      ∧ ¬ gate_fires 1999 State.init
      ∧ guess_os sample_consts 1999 State.init = ⟨State.init, []⟩
      ∧ gate_fires 704 state_before_wrap
      ∧ (guess_os sample_consts 704 state_before_wrap).st.guess_start_ms
          = (4294966000 + 2000) % 4294967296 :=
  ⟨by decide,
    ((gate_step sample_consts 5000 State.init).2.1 (by decide)).2 (by decide),
    by decide,
    (gate_step sample_consts 1999 State.init).2.2 (by decide),
    by decide,
    ((gate_step sample_consts 704 state_before_wrap).2.1 (by decide)).1⟩

/-! ## Cadence of the gate -/

theorem clock_ok_append (ts : List Nat) (t : Nat) :
    ∀ prev : Nat, clock_ok prev (ts ++ [t])
      ↔ clock_ok prev ts ∧ last_of prev ts ≤ t ∧ t < last_of prev ts + 2000
          ∧ t < 4294967296 := by
  induction ts with
  | nil => intro prev; simp [clock_ok, last_of]
  | cons a ts ih =>
    intro prev
    show (prev ≤ a ∧ a < prev + 2000 ∧ a < 4294967296 ∧ clock_ok a (ts ++ [t]))
      ↔ (prev ≤ a ∧ a < prev + 2000 ∧ a < 4294967296 ∧ clock_ok a ts)
          ∧ last_of a ts ≤ t ∧ t < last_of a ts + 2000 ∧ t < 4294967296
    rw [ih a]
    tauto

theorem last_of_mem (ts : List Nat) :
    ∀ prev : Nat, last_of prev ts = prev ∨ last_of prev ts ∈ ts := by
  induction ts with
  | nil => intro prev; exact Or.inl rfl
  | cons a ts ih =>
    intro prev
    right
    rcases ih a with h | h
    · simp [last_of, h]
    · simp [last_of, h]

theorem clock_ok_le_last (ts : List Nat) :
    ∀ prev : Nat, clock_ok prev ts →
      prev ≤ last_of prev ts ∧ (prev < 4294967296 → last_of prev ts < 4294967296)
        ∧ ∀ u ∈ ts, u ≤ last_of prev ts := by
  induction ts with
  | nil => intro prev _; simp [last_of]
  | cons a ts ih =>
    intro prev h
    obtain ⟨h1, h2, h3, h4⟩ := h
    obtain ⟨i1, i2, i3⟩ := ih a h4
    refine ⟨by simp only [last_of]; omega, fun _ => i2 h3, ?_⟩
    intro u hu
    simp only [last_of]
    rcases List.mem_cons.1 hu with rfl | hu
    · exact i1
    · exact i3 u hu

/-- One gate call on a clock that advanced by less than a window: the timer follows
the clock in steps of 2000 ms. -/
theorem guess_os_follows_clock (k : HidConsts) (t prev : Nat) (s : State)
    (hs : s.guess_start_ms = 2000 * (prev / 2000)) (h1 : prev ≤ t) (h2 : t < prev + 2000)
    (h3 : t < 4294967296) :
    (guess_os k t s).st.guess_start_ms = 2000 * (t / 2000)
      ∧ (gate_fires t s ↔ t / 2000 = prev / 2000 + 1)
      ∧ (¬ gate_fires t s ↔ t / 2000 = prev / 2000) := by
  have hsub : u32_sub t s.guess_start_ms = t - 2000 * (prev / 2000) := by
    unfold u32_sub
    rw [hs]
    omega
  have hiff : gate_fires t s ↔ t / 2000 = prev / 2000 + 1 := by
    unfold gate_fires interval_ms
    rw [hsub]
    omega
  refine ⟨?_, hiff, ?_⟩
  · by_cases hf : gate_fires t s
    · rw [guess_os_fired_start k t s hf, hs]
      have := hiff.1 hf
      unfold u32_add interval_ms
      omega
    · rw [guess_os_not_fired k t s hf, hs]
      have : ¬ (t / 2000 = prev / 2000 + 1) := fun h => hf (hiff.2 h)
      show 2000 * (prev / 2000) = 2000 * (t / 2000)
      omega
  · rw [hiff]
    omega

/-- Only `guess_os` writes its timer. -/
theorem exec_start_of_reading_none (k : HidConsts) (c : Call) (s : State)
    (h : c.reading = none) : (c.exec k s).st.guess_start_ms = s.guess_start_ms := by
  cases c with
  | guess_os now => simp [Call.reading] at h
  | process_wlength di wi wl => simp [Call.exec, process_wlength, Run.start, Run.printf]
  | tud_hid_set_report_cb i id ty buf n =>
    simp only [Call.exec, tud_hid_set_report_cb, Run.start, Run.printf]
    split_ifs <;> rfl
  | tud_mount_cb => rfl
  | tud_umount_cb => rfl
  | tud_suspend_cb en => rfl
  | tud_resume_cb => rfl
  | led_blinking_task now =>
    simp only [Call.exec, led_blinking_task, Run.start]
    split_ifs <;> rfl

/-- Along a well-behaved clock the timer is the last reading rounded down to a
multiple of 2000 ms, and the number of firings is the number of whole windows the
clock has passed. -/
theorem timer_follows_clock (k : HidConsts) (cs : List Call) :
    ∀ (s : State) (prev : Nat), s.guess_start_ms = 2000 * (prev / 2000) →
      clock_ok prev (clock_readings cs) →
      (exec_all k cs s).guess_start_ms = 2000 * (last_of prev (clock_readings cs) / 2000)
        ∧ firing_count k cs s + prev / 2000 = last_of prev (clock_readings cs) / 2000 := by
  induction cs with
  | nil => intro s prev hs _; exact ⟨hs, by simp [firing_count, clock_readings, last_of]⟩
  | cons c cs ih =>
    intro s prev hs hok
    cases hc : c.reading with
    | none =>
      have hr : clock_readings (c :: cs) = clock_readings cs := by
        simp [clock_readings, List.filterMap_cons, hc]
      have hfire : c.fires s = false := by
        cases c <;> simp_all [Call.reading, Call.fires]
      rw [hr] at hok ⊢
      have hs2 : (c.exec k s).st.guess_start_ms = 2000 * (prev / 2000) := by
        rw [exec_start_of_reading_none k c s hc, hs]
      obtain ⟨i1, i2⟩ := ih (c.exec k s).st prev hs2 hok
      refine ⟨i1, ?_⟩
      simp only [firing_count, hfire]
      simpa using i2
    | some t =>
      have hct : c = Call.guess_os t := by
        cases c <;> simp_all [Call.reading]
      subst hct
      have hr : clock_readings (Call.guess_os t :: cs) = t :: clock_readings cs := by
        simp [clock_readings, List.filterMap_cons, Call.reading]
      rw [hr] at hok ⊢
      obtain ⟨h1, h2, h3, h4⟩ := hok
      obtain ⟨g1, g2, g3⟩ := guess_os_follows_clock k t prev s hs h1 h2 h3
      obtain ⟨i1, i2⟩ := ih (guess_os k t s).st t g1 h4
      refine ⟨i1, ?_⟩
      simp only [firing_count, Call.fires, last_of]
      have i2b : firing_count k cs (guess_os k t s).st + t / 2000
          = last_of t (clock_readings cs) / 2000 := i2
      by_cases hf : gate_fires t s
      · have := g2.1 hf
        simp only [hf, decide_True, if_true]
        show 1 + firing_count k cs (guess_os k t s).st + prev / 2000 = _
        omega
      · have := g3.1 hf
        simp only [hf, decide_False, Bool.false_eq_true, if_false]
        show 0 + firing_count k cs (guess_os k t s).st + prev / 2000 = _
        omega

/-- C13: take any sequence of calls, in which `guess_os` calls may be interleaved
with `process_wlength` and every other entry point, performed from a state whose
timer is 0, and let the clock readings of its `guess_os` calls start below 2000 ms,
never decrease, stay below `2^32` and differ by less than 2000 ms from one call to
the next. Then for every `n ≥ 1` a `guess_os` call of the sequence is the `n`-th
firing of the gate (it fires and exactly `n - 1` firings came before it) if and only
if it is the first `guess_os` call whose reading is at least `2000 * n`. -/
theorem gate_cadence (k : HidConsts) (pre : List Call) (t : Nat) (s : State)
    (hs : s.guess_start_ms = 0)
    (hok : clock_ok 0 (clock_readings (pre ++ [Call.guess_os t])))
    (n : Nat) (hn : 1 ≤ n) :
    (gate_fires t (exec_all k pre s) ∧ firing_count k pre s = n - 1)
      ↔ (2000 * n ≤ t ∧ ∀ u ∈ clock_readings pre, u < 2000 * n) := by
  have hr : clock_readings (pre ++ [Call.guess_os t]) = clock_readings pre ++ [t] := by
    simp [clock_readings, List.filterMap_append, Call.reading]
  rw [hr, clock_ok_append] at hok
  obtain ⟨hpre, hL1, hL2, ht⟩ := hok
  obtain ⟨hstart, hcount⟩ := timer_follows_clock k pre s 0 (by simp [hs]) hpre
  obtain ⟨_, _, hle⟩ := clock_ok_le_last (clock_readings pre) 0 hpre
  obtain ⟨_, hfire, _⟩ :=
    guess_os_follows_clock k t (last_of 0 (clock_readings pre)) (exec_all k pre s) hstart
      hL1 hL2 ht
  rw [hfire]
  constructor
  · rintro ⟨h1, h2⟩
    refine ⟨by omega, ?_⟩
    intro u hu
    have := hle u hu
    omega
  · rintro ⟨h1, h2⟩
    have hL : last_of 0 (clock_readings pre) < 2000 * n := by
      rcases last_of_mem (clock_readings pre) 0 with h | h
      · rw [h]; omega
      · exact h2 _ h
    constructor <;> omega

/-- Witness of C13: in a session with gate calls at 500, 1900, 2100 and 3900 ms and a
request in between, the call at 4100 ms is the second firing. -/
theorem gate_cadence_witness :
    clock_ok 0 (clock_readings (calls_session ++ [Call.guess_os 4100]))
      ∧ gate_fires 4100 (exec_all sample_consts calls_session State.init)
      ∧ firing_count sample_consts calls_session State.init = 2 - 1 :=
  ⟨by decide,
    (gate_cadence sample_consts calls_session 4100 State.init rfl (by decide) 2
      (by decide)).2 ⟨by decide, by decide⟩⟩

/-! ## The Num Lock latch and the frame of each entry point -/

/-- The callback `tud_hid_set_report_cb` in closed form. -/
theorem tud_hid_set_report_cb_eq (k : HidConsts) (i rid ty : Nat) (buf : List Nat) (n : Nat)
    (s : State) :
    tud_hid_set_report_cb k i rid ty buf n s
      = if ty = k.HID_REPORT_TYPE_OUTPUT ∧ rid = k.REPORT_ID_KEYBOARD ∧ 1 ≤ n
            ∧ buf.headD 0 &&& k.KEYBOARD_LED_NUMLOCK ≠ 0 then
          ⟨{ s with num_lock := 1 }, [Effect.printf (Msg.numlock_called 1)]⟩
        else ⟨s, []⟩ := by
  unfold tud_hid_set_report_cb
  simp only [Run.start, Run.printf, List.nil_append]
  by_cases h1 : ty = k.HID_REPORT_TYPE_OUTPUT
  · by_cases h2 : rid = k.REPORT_ID_KEYBOARD
    · by_cases h3 : n < 1
      · have : ¬ 1 ≤ n := by omega
        simp [h1, h2, h3, this]
      · have : 1 ≤ n := by omega
        by_cases h4 : buf.headD 0 &&& k.KEYBOARD_LED_NUMLOCK = 0
        · simp [h1, h2, h3, this, h4]
        · simp [h1, h2, h3, this, h4]
    · simp [h1, h2]
  · simp [h1]

/-- No entry point writes a value other than 1 into `num_lock`. -/
theorem exec_num_lock (k : HidConsts) (c : Call) (s : State) :
    (c.exec k s).st.num_lock = s.num_lock ∨ (c.exec k s).st.num_lock = 1 := by
  cases c with
  | guess_os now =>
    left
    simp only [Call.exec]
    by_cases hf : gate_fires now s
    · by_cases h0 : s.guessed = 0
      · rw [guess_os_fired_unresolved k now s hf h0]
      · rw [guess_os_fired_terminal k now s hf h0]
    · rw [guess_os_not_fired k now s hf]
  | process_wlength di wi wl =>
    left; simp [Call.exec, process_wlength, Run.start, Run.printf]
  | tud_hid_set_report_cb i id ty buf n =>
    simp only [Call.exec, tud_hid_set_report_cb_eq]
    split_ifs
    · right; rfl
    · left; rfl
  | tud_mount_cb => left; rfl
  | tud_umount_cb => left; rfl
  | tud_suspend_cb en => left; rfl
  | tud_resume_cb => left; rfl
  | led_blinking_task now =>
    left
    simp only [Call.exec, led_blinking_task, Run.start]
    split_ifs <;> rfl

theorem exec_all_num_lock (k : HidConsts) (cs : List Call) :
    ∀ s : State, s.num_lock = 1 → (exec_all k cs s).num_lock = 1 := by
  induction cs with
  | nil => intro s h; exact h
  | cons c cs ih =>
    intro s h
    apply ih
    rcases exec_num_lock k c s with h2 | h2
    · rw [h2, h]
    · exact h2

/-- C14: `tud_hid_set_report_cb` sets `num_lock` to 1 when the report type is OUTPUT,
the report id is the keyboard's, `bufsize` is at least 1 and the first byte of the
buffer has the Num Lock bit set; in every other case it leaves `num_lock` (and the
whole state) unchanged. No entry point ever writes another value than 1 into
`num_lock`, so once it is 1 it is 1 after every sequence of calls. -/
theorem num_lock_latch (k : HidConsts) (i rid ty : Nat) (buf : List Nat) (n : Nat)
    (s : State) (cs : List Call) :
    ((ty = k.HID_REPORT_TYPE_OUTPUT ∧ rid = k.REPORT_ID_KEYBOARD ∧ 1 ≤ n
          ∧ buf.headD 0 &&& k.KEYBOARD_LED_NUMLOCK ≠ 0) →
        (tud_hid_set_report_cb k i rid ty buf n s).st.num_lock = 1)
      ∧ (¬ (ty = k.HID_REPORT_TYPE_OUTPUT ∧ rid = k.REPORT_ID_KEYBOARD ∧ 1 ≤ n
            ∧ buf.headD 0 &&& k.KEYBOARD_LED_NUMLOCK ≠ 0) →
          (tud_hid_set_report_cb k i rid ty buf n s).st = s)
      ∧ (∀ c : Call, (c.exec k s).st.num_lock = s.num_lock ∨ (c.exec k s).st.num_lock = 1)
      ∧ (s.num_lock = 1 → (exec_all k cs s).num_lock = 1) := by
  refine ⟨?_, ?_, fun c => exec_num_lock k c s, exec_all_num_lock k cs s⟩
  · intro h
    rw [tud_hid_set_report_cb_eq, if_pos h]
  · intro h
    rw [tud_hid_set_report_cb_eq, if_neg h]

/-- Witness of C14: an LED report with the Num Lock bit sets the latch; a later
report with the bit clear, a gate call and a request leave it set. -/
theorem num_lock_latch_witness :
    (tud_hid_set_report_cb sample_consts 0 1 2 [3] 1 State.init).st.num_lock = 1
      ∧ (tud_hid_set_report_cb sample_consts 0 1 2 [2] 1 State.init).st = State.init
      ∧ (exec_all sample_consts
            [Call.tud_hid_set_report_cb 0 1 2 [0] 1, Call.guess_os 2000,
              Call.process_wlength 0 0 0xFF]
            (sample_state hist_linux 1)).num_lock = 1 :=
  ⟨(num_lock_latch sample_consts 0 1 2 [3] 1 State.init []).1 (by decide),
    (num_lock_latch sample_consts 0 1 2 [2] 1 State.init []).2.1 (by decide),
    (num_lock_latch sample_consts 0 1 2 [0] 1 (sample_state hist_linux 1)
      [Call.tud_hid_set_report_cb 0 1 2 [0] 1, Call.guess_os 2000,
        Call.process_wlength 0 0 0xFF]).2.2.2 (by decide)⟩

/-- C15: `guess_os` never modifies the histogram `setups_data` nor `num_lock`;
`process_wlength` modifies only `setups_data` (so `guessed` and `num_lock` are
unchanged); `tud_hid_set_report_cb` modifies only `num_lock` (so `guessed` and
`setups_data` are unchanged). -/
theorem single_writer_frame (k : HidConsts) (now di wi wl i rid ty : Nat) (buf : List Nat)
    (n : Nat) (s : State) :
    ((guess_os k now s).st.setups_data = s.setups_data
        ∧ (guess_os k now s).st.num_lock = s.num_lock)
      ∧ (process_wlength di wi wl s).st
          = { s with setups_data := (process_wlength di wi wl s).st.setups_data }
      ∧ (tud_hid_set_report_cb k i rid ty buf n s).st
          = { s with num_lock := (tud_hid_set_report_cb k i rid ty buf n s).st.num_lock } := by
  refine ⟨?_, ?_, ?_⟩
  · by_cases hf : gate_fires now s
    · by_cases h0 : s.guessed = 0
      · rw [guess_os_fired_unresolved k now s hf h0]; exact ⟨rfl, rfl⟩
      · rw [guess_os_fired_terminal k now s hf h0]; exact ⟨rfl, rfl⟩
    · rw [guess_os_not_fired k now s hf]; exact ⟨rfl, rfl⟩
  · simp [process_wlength, Run.start, Run.printf]
  · rw [tud_hid_set_report_cb_eq]
    split_ifs <;> rfl

/-! ## The classifier is one-shot -/

/-- A gate firing with `guessed = 0` ends with `guessed` 1 or 2. -/
theorem guess_os_fired_unresolved_guessed (k : HidConsts) (now : Nat) (s : State)
    (hf : gate_fires now s) (h0 : s.guessed = 0) :
    (guess_os k now s).st.guessed = 1 ∨ (guess_os k now s).st.guessed = 2 := by
  rw [guess_os_fired_unresolved k now s hf h0]
  by_cases h : ∃ row : Row, row.holds s.setups_data
  · left
    simp [(guessed_after_rules_eq_one _).2 h]
  · right
    show (if guessed_after_rules s.setups_data = 0 then 2
      else guessed_after_rules s.setups_data) = 2
    rw [guessed_after_rules_of_none _ h]
    by_cases hc : s.setups_data.count < 3 <;> simp [hc]

/-- Once `guessed` is non-zero no later call enters the block main.c:258-335. -/
theorem evaluation_count_of_ne_zero (k : HidConsts) (cs : List Call) :
    ∀ s : State, s.guessed ≠ 0 → evaluation_count k cs s = 0 := by
  induction cs with
  | nil => intro s _; rfl
  | cons c cs ih =>
    intro s hg
    have h1 : c.evaluates s = false := by
      cases c <;> simp [Call.evaluates, hg]
    have h2 : (c.exec k s).st.guessed ≠ 0 := by
      rw [exec_guessed_of_ne_zero k c s hg]; exact hg
    simp [evaluation_count, h1, ih _ h2]

theorem evaluation_count_le_one (k : HidConsts) (cs : List Call) :
    ∀ s : State, evaluation_count k cs s ≤ 1 := by
  induction cs with
  | nil => intro s; simp [evaluation_count]
  | cons c cs ih =>
    intro s
    by_cases he : c.evaluates s = true
    · have hrest : evaluation_count k cs (c.exec k s).st = 0 := by
        apply evaluation_count_of_ne_zero
        cases c with
        | guess_os now =>
          simp only [Call.evaluates, decide_eq_true_eq] at he
          rcases guess_os_fired_unresolved_guessed k now s he.1 he.2.1 with h | h <;>
            simp [Call.exec, h]
        | process_wlength di wi wl => simp [Call.evaluates] at he
        | tud_hid_set_report_cb i id ty buf n => simp [Call.evaluates] at he
        | tud_mount_cb => simp [Call.evaluates] at he
        | tud_umount_cb => simp [Call.evaluates] at he
        | tud_suspend_cb en => simp [Call.evaluates] at he
        | tud_resume_cb => simp [Call.evaluates] at he
        | led_blinking_task now => simp [Call.evaluates] at he
      simp [evaluation_count, he, hrest]
    · have := ih (c.exec k s).st
      simp only [evaluation_count, he]
      simpa using this

/-- A call that does not pass the gate leaves `guessed` as it is. -/
theorem exec_guessed_of_not_fires (k : HidConsts) (c : Call) (s : State)
    (h : c.fires s = false) : (c.exec k s).st.guessed = s.guessed := by
  cases c with
  | guess_os now =>
    simp only [Call.fires, decide_eq_false_iff_not] at h
    simp only [Call.exec]
    rw [guess_os_not_fired k now s h]
  | process_wlength di wi wl => simp [Call.exec, process_wlength, Run.start, Run.printf]
  | tud_hid_set_report_cb i id ty buf n =>
    simp only [Call.exec, tud_hid_set_report_cb_eq]
    split_ifs <;> rfl
  | tud_mount_cb => rfl
  | tud_umount_cb => rfl
  | tud_suspend_cb en => rfl
  | tud_resume_cb => rfl
  | led_blinking_task now =>
    simp only [Call.exec, led_blinking_task, Run.start]
    split_ifs <;> rfl

/-- From an unresolved state, `guessed` is still 0 exactly as long as the gate has
not fired. -/
theorem guessed_zero_iff_no_firing (k : HidConsts) (cs : List Call) :
    ∀ s : State, s.guessed = 0 →
      ((exec_all k cs s).guessed = 0 ↔ firing_count k cs s = 0) := by
  induction cs with
  | nil => intro s h0; simp [exec_all, firing_count, h0]
  | cons c cs ih =>
    intro s h0
    by_cases hf : c.fires s = true
    · have hne : (c.exec k s).st.guessed ≠ 0 := by
        cases c with
        | guess_os now =>
          simp only [Call.fires, decide_eq_true_eq] at hf
          rcases guess_os_fired_unresolved_guessed k now s hf h0 with h | h <;>
            simp [Call.exec, h]
        | process_wlength di wi wl => simp [Call.fires] at hf
        | tud_hid_set_report_cb i id ty buf n => simp [Call.fires] at hf
        | tud_mount_cb => simp [Call.fires] at hf
        | tud_umount_cb => simp [Call.fires] at hf
        | tud_suspend_cb en => simp [Call.fires] at hf
        | tud_resume_cb => simp [Call.fires] at hf
        | led_blinking_task now => simp [Call.fires] at hf
      have hkeep := exec_all_guessed_of_ne_zero k cs (c.exec k s).st hne
      simp only [exec_all, firing_count, hf, if_true]
      constructor
      · intro h; rw [hkeep] at h; exact absurd h hne
      · intro h; omega
    · have hf2 : c.fires s = false := by simpa using hf
      have hkeep := exec_guessed_of_not_fires k c s hf2
      have := ih (c.exec k s).st (by rw [hkeep]; exact h0)
      simp only [exec_all, firing_count, hf2]
      simpa using this

/-- C16: every gate firing that finds `guessed = 0` leaves `guessed` equal to 1 or 2,
for every histogram and latch value; after it no sequence of calls
(`process_wlength` observations included) changes `guessed` and no later call
evaluates the rule table. In every session at most one call evaluates the rule
table, and from an unresolved state a `guess_os` call evaluates it exactly when it
is the first firing of the gate. -/
theorem classifier_one_shot (k : HidConsts) (now : Nat) (s : State) (cs : List Call) :
    (gate_fires now s → s.guessed = 0 →
        ((guess_os k now s).st.guessed = 1 ∨ (guess_os k now s).st.guessed = 2)
          ∧ (exec_all k cs (guess_os k now s).st).guessed = (guess_os k now s).st.guessed
          ∧ evaluation_count k cs (guess_os k now s).st = 0)
      ∧ evaluation_count k cs s ≤ 1
      ∧ (s.guessed = 0 → ∀ t : Nat,
          ((Call.guess_os t).evaluates (exec_all k cs s) = true
            ↔ gate_fires t (exec_all k cs s) ∧ firing_count k cs s = 0)) := by
  refine ⟨?_, evaluation_count_le_one k cs s, ?_⟩
  · intro hf h0
    have h12 := guess_os_fired_unresolved_guessed k now s hf h0
    have hne : (guess_os k now s).st.guessed ≠ 0 := by
      rcases h12 with h | h <;> rw [h] <;> decide
    exact ⟨h12, exec_all_guessed_of_ne_zero k cs _ hne, evaluation_count_of_ne_zero k cs _ hne⟩
  · intro h0 t
    have := guessed_zero_iff_no_firing k cs s h0
    simp only [Call.evaluates, decide_eq_true_eq]
    rw [← this]
    constructor
    · rintro ⟨h1, h2, _⟩; exact ⟨h1, h2⟩
    · rintro ⟨h1, h2⟩; exact ⟨h1, h2, by omega⟩

/-- Witness of C16: the first firing on the Linux histogram resolves; requests
that turn the histogram into another fingerprint and a later firing change
nothing. -/
theorem classifier_one_shot_witness :
    ((guess_os sample_consts 2000 (sample_state hist_linux 1)).st.guessed = 1
        ∨ (guess_os sample_consts 2000 (sample_state hist_linux 1)).st.guessed = 2)
      ∧ (exec_all sample_consts [Call.process_wlength 0 0 0xFF, Call.guess_os 4000]
            (guess_os sample_consts 2000 (sample_state hist_linux 1)).st).guessed
          = (guess_os sample_consts 2000 (sample_state hist_linux 1)).st.guessed
      ∧ evaluation_count sample_consts [Call.process_wlength 0 0 0xFF, Call.guess_os 4000]
            (guess_os sample_consts 2000 (sample_state hist_linux 1)).st = 0 :=
  (classifier_one_shot sample_consts 2000 (sample_state hist_linux 1)
    [Call.process_wlength 0 0 0xFF, Call.guess_os 4000]).1 (by decide) (by decide)

/-! ## Wrapping of the 8-bit counters -/

set_option maxRecDepth 100000 in
theorem histogram_261_eq_5 : histogram calls_261 = histogram calls_5 := by
  decide

/-- C17: the histogram counters are 8-bit and wrap. After every sequence of
`process_wlength` calls from power-on, `count` is the number of calls modulo 256 and
each bucket counter is the number of calls with its wLength modulo 256; for at most
255 calls the counters are exact and the nine bucket counters sum to at most
`count`; and 261 calls with wLength 0xFF leave the same histogram (`count = 5`,
`count_ff = 5`) as 5 such calls. -/
theorem counters_wrap (cs : List (Nat × Nat × Nat)) :
    ((histogram cs).count = cs.length % 256
        ∧ buckets (histogram cs) = bucket_values.map (fun v => calls_with v cs % 256))
      ∧ (cs.length ≤ 255 →
          (histogram cs).count = cs.length
            ∧ buckets (histogram cs) = bucket_values.map (fun v => calls_with v cs)
            ∧ (buckets (histogram cs)).sum ≤ (histogram cs).count)
      ∧ (calls_261.length = 261 ∧ calls_5.length = 5
          ∧ histogram calls_261 = histogram calls_5
          ∧ (histogram calls_261).count = 5 ∧ (histogram calls_261).count_ff = 5) := by
  refine ⟨histogram_mod cs, ?_, ?_⟩
  · intro h
    exact ⟨(histogram_exact cs h).1, (histogram_exact cs h).2, buckets_sum_le_count cs h⟩
  · refine ⟨List.length_replicate _ _, List.length_replicate _ _, histogram_261_eq_5, ?_, ?_⟩
    · rw [histogram_261_eq_5]; decide
    · rw [histogram_261_eq_5]; decide

/-- Witness of C17 on a sequence of three calls. -/
theorem counters_wrap_witness :
    calls_three.length ≤ 255
      ∧ (histogram calls_three).count = calls_three.length
      ∧ (buckets (histogram calls_three)).sum ≤ (histogram calls_three).count :=
  ⟨by decide,
    ((counters_wrap calls_three).2.1 (by decide)).1,
    ((counters_wrap calls_three).2.1 (by decide)).2.2⟩

/-! ## The blink period -/

theorem exec_blink_interval (k : HidConsts) (c : Call) (s : State) :
    (c.exec k s).st.blink_interval_ms = (notification_period c).getD s.blink_interval_ms := by
  cases c with
  | guess_os now =>
    simp only [Call.exec, notification_period, Option.getD_none]
    by_cases hf : gate_fires now s
    · by_cases h0 : s.guessed = 0
      · rw [guess_os_fired_unresolved k now s hf h0]
      · rw [guess_os_fired_terminal k now s hf h0]
    · rw [guess_os_not_fired k now s hf]
  | process_wlength di wi wl =>
    simp [Call.exec, process_wlength, Run.start, Run.printf, notification_period]
  | tud_hid_set_report_cb i id ty buf n =>
    simp only [Call.exec, tud_hid_set_report_cb_eq, notification_period, Option.getD_none]
    split_ifs <;> rfl
  | tud_mount_cb => rfl
  | tud_umount_cb => rfl
  | tud_suspend_cb en => rfl
  | tud_resume_cb => rfl
  | led_blinking_task now =>
    simp only [Call.exec, led_blinking_task, Run.start, notification_period, Option.getD_none]
    split_ifs <;> rfl

theorem getLast_getD_cons (p x : Nat) (l : List Nat) :
    ((p :: l).getLast?).getD x = (l.getLast?).getD p := by
  rw [List.getLast?_cons]
  cases l.getLast? <;> rfl

theorem exec_all_blink_interval (k : HidConsts) (cs : List Call) :
    ∀ s : State, (exec_all k cs s).blink_interval_ms
      = ((cs.filterMap notification_period).getLast?).getD s.blink_interval_ms := by
  induction cs with
  | nil => intro s; rfl
  | cons c cs ih =>
    intro s
    simp only [exec_all]
    rw [ih, exec_blink_interval]
    cases hc : notification_period c with
    | none => simp [List.filterMap_cons, hc]
    | some p => simp [List.filterMap_cons, hc, getLast_getD_cons]

theorem period_by_last_notification_ne_zero (cs : List Call) :
    period_by_last_notification cs ≠ 0 := by
  unfold period_by_last_notification
  cases h : (cs.filterMap notification_period).getLast? with
  | none => simp
  | some p =>
    have hmem := List.mem_of_getLast?_eq_some h
    obtain ⟨c, _, hc⟩ := List.mem_filterMap.1 hmem
    cases c <;> simp [notification_period] at hc <;> simp [← hc]

/-- C18: after any sequence of calls from power-on (mount, unmount, suspend and
resume notifications, interleaved with any other entry point), `blink_interval_ms`
is the period fixed by the last notification alone: 250 with none or after unmount,
1000 after mount or resume, 2500 after suspend. It is therefore never 0, so the test
`!blink_interval_ms` of `led_blinking_task` (main.c:348) is false in every reachable
state and the task always goes on to the elapsed-time test. -/
theorem blink_period (k : HidConsts) (cs : List Call) (now : Nat) :
    (exec_all k cs State.init).blink_interval_ms = period_by_last_notification cs
      ∧ (exec_all k cs State.init).blink_interval_ms ≠ 0
      ∧ led_blinking_task now (exec_all k cs State.init)
          = (if u32_sub now (exec_all k cs State.init).led_start_ms
                < (exec_all k cs State.init).blink_interval_ms then
              ⟨exec_all k cs State.init, []⟩
            else
              ⟨{ exec_all k cs State.init with
                  led_start_ms := u32_add (exec_all k cs State.init).led_start_ms
                    (exec_all k cs State.init).blink_interval_ms,
                  led_state := !(exec_all k cs State.init).led_state },
                [Effect.board_led_write (exec_all k cs State.init).led_state]⟩) := by
  have h1 : (exec_all k cs State.init).blink_interval_ms = period_by_last_notification cs :=
    exec_all_blink_interval k cs State.init
  have h2 : (exec_all k cs State.init).blink_interval_ms ≠ 0 := by
    rw [h1]; exact period_by_last_notification_ne_zero cs
  refine ⟨h1, h2, ?_⟩
  unfold led_blinking_task
  simp only [Run.start, h2, if_false, List.nil_append]

end PicoOsDetect
